import Mathlib

/-!
Verification development for the greymatter DAC-controller firmware.

The definitions below are a shallow embedding of the firmware's core
subsystems, translated from the C++ sources:

* `Scpi.*`        — the text-protocol parser (src/src/scpi_parser.cpp);
* `LTC2662.*`     — the 5-channel current-DAC encoder (src/src/ltc2662.cpp);
* `LTC2664.*`     — the 4-channel voltage-DAC encoder (src/ltc2664.cpp);
* `IoExpander.*`  — fault-bitmap reconstruction (src/software/src/io_expander.cpp);
* `CalStorage.*`  — CRC-validated calibration persistence (src/cal_storage.cpp);
* `BoardManager.*`— the addressing/dispatch layer (src/board_manager.cpp).

Modelling conventions: machine integers are `Nat`/`Int` with explicit masking
where the source masks or truncates; `float` quantities are modelled as exact
rationals (`ℚ`); a C char pointer into a NUL-terminated line is modelled as the
corresponding `List Char` suffix, with reads past the end of the list returning
the NUL character, exactly as reading the terminator does in C.  Input lines
come from `read_line` (src/src/main.cpp), which only stores printable ASCII, so
a line never contains a NUL byte.
-/

namespace Scpi

/-- The NUL character that a C string read yields at (or past) the terminator. -/
def nulChar : Char := Char.ofNat 0

/-- Read character `i` of the suffix `s`, as C does on a NUL-terminated string:
positions at or past the end of the line read the terminator. -/
def cAt (s : List Char) (i : Nat) : Char := s.getD i nulChar

/-- C `isspace` in the default locale: `' '` and the control characters
`'\t'`(9) through `'\r'`(13). -/
def isCSpace (c : Char) : Bool := c = ' ' || (9 ≤ c.toNat && c.toNat ≤ 13)

/-- ScpiParser::skip_whitespace. -/
def skip_whitespace (s : List Char) : List Char := s.dropWhile isCSpace

/-- `strncasecmp(s, t, n) == 0` (the parser only ever compares the result with
zero, so only the equality outcome is modelled): the first `n` characters agree
case-insensitively, stopping early at a NUL terminator. -/
def strncaseeq : List Char → List Char → Nat → Bool
  | _, _, 0 => true
  | s, t, n + 1 =>
    let c1 := (cAt s 0).toUpper
    let c2 := (cAt t 0).toUpper
    if c1 = c2 then
      if c1 = nulChar then true else strncaseeq (s.drop 1) (t.drop 1) n
    else false

/-- ScpiParser::extract_index: case-insensitively match prefix `pfx`, then read
the single decimal digit immediately following it; `-1` when the prefix does
not match or no digit follows. -/
def extract_index (s : List Char) (pfx : List Char) : Int :=
  if (List.range pfx.length).all (fun i => (cAt s i).toUpper = (cAt pfx i).toUpper) then
    if (cAt s pfx.length).isDigit then ((cAt s pfx.length).toNat - 48 : Nat) else -1
  else -1

/-- Value of a run of decimal digits. -/
def decVal (ds : List Char) : Nat := ds.foldl (fun a c => a * 10 + (c.toNat - 48)) 0

/-- C `isxdigit`. -/
def isHexDigitChar (c : Char) : Bool :=
  c.isDigit || ('a' ≤ c && c ≤ 'f') || ('A' ≤ c && c ≤ 'F')

/-- Value of one hexadecimal digit. -/
def hexDigitVal (c : Char) : Nat :=
  if c.isDigit then c.toNat - 48
  else if 'a' ≤ c && c ≤ 'f' then c.toNat - 87
  else c.toNat - 55

/-- Value of a run of hexadecimal digits. -/
def hexVal (ds : List Char) : Nat := ds.foldl (fun a c => a * 16 + hexDigitVal c) 0

/-- Octal digit predicate. -/
def isOctDigitChar (c : Char) : Bool := '0' ≤ c && c ≤ '7'

/-- Value of a run of octal digits. -/
def octVal (ds : List Char) : Nat := ds.foldl (fun a c => a * 8 + (c.toNat - 48)) 0

/-- Model of `strtol(str, &end, 0)`: skip whitespace, optional sign, then a hex
(`0x`-prefixed), octal (leading `0`) or decimal literal; `none` models
`end == str` (no digits consumed).  Saturation at `LONG_MAX` is not modelled:
the only caller rejects every value above 65535, so saturation is
unobservable through it. -/
def strtol_base0 (s : List Char) : Option Int :=
  let s := skip_whitespace s
  let sgns : Int × List Char :=
    match s with
    | '-' :: r => (-1, r)
    | '+' :: r => (1, r)
    | _ => (1, s)
  let sgn := sgns.1
  let s1 := sgns.2
  if cAt s1 0 = '0' && (cAt s1 1 = 'x' || cAt s1 1 = 'X') && isHexDigitChar (cAt s1 2) then
    some (sgn * hexVal ((s1.drop 2).takeWhile isHexDigitChar))
  else if cAt s1 0 = '0' then
    some (sgn * octVal ((s1.drop 1).takeWhile isOctDigitChar))
  else
    let ds := s1.takeWhile Char.isDigit
    if ds.isEmpty then none else some (sgn * decVal ds)

/-- ScpiParser::parse_int: `strtol` with auto-detected base, accepted iff the
value lies in `[0, 65535]` (it is stored into a `uint16_t`). -/
def parse_int (s : List Char) : Option Nat :=
  match strtol_base0 s with
  | none => none
  | some v => if v < 0 || v > 65535 then none else some v.toNat

/-- Model of `strtof` for the literals this protocol sees: skip whitespace,
optional sign, decimal digits with at most one point, optional exponent.
(`strtof` additionally accepts hex floats and inf/nan spellings; those are not
modelled, and no claim below depends on them.)  `none` models `end == str`,
i.e. an empty mantissa.  The value is exact (`ℚ`); float rounding of the
literal is not modelled. -/
def parse_float (s : List Char) : Option ℚ :=
  let s := skip_whitespace s
  let sgns : ℚ × List Char :=
    match s with
    | '-' :: r => (-1, r)
    | '+' :: r => (1, r)
    | _ => (1, s)
  let sgn := sgns.1
  let s1 := sgns.2
  let ip := s1.takeWhile Char.isDigit
  let s2 := s1.dropWhile Char.isDigit
  let fps : List Char × List Char :=
    if cAt s2 0 = '.' then
      ((s2.drop 1).takeWhile Char.isDigit, (s2.drop 1).dropWhile Char.isDigit)
    else ([], s2)
  let fp := fps.1
  let s3 := fps.2
  if ip.isEmpty && fp.isEmpty then none
  else
    let mant : ℚ := (decVal ip : ℚ) + (decVal fp : ℚ) / (10 : ℚ) ^ fp.length
    let e : Int :=
      if cAt s3 0 = 'e' || cAt s3 0 = 'E' then
        let esgns : Int × List Char :=
          match s3.drop 1 with
          | '-' :: r => (-1, r)
          | '+' :: r => (1, r)
          | r => (1, r)
        let eds := esgns.2.takeWhile Char.isDigit
        if eds.isEmpty then 0 else esgns.1 * decVal eds
      else 0
    some (sgn * mant * (10 : ℚ) ^ e)

/-- `strchr(s, c)`: the suffix starting at the first occurrence of `c`, `none`
when `c` does not occur before the terminator. -/
def strchr (s : List Char) (c : Char) : Option (List Char) :=
  match s.dropWhile (fun a => a ≠ c) with
  | [] => none
  | t => some t

/-- Trailing-whitespace trim used on serial-number payloads. -/
def trimTrailingWs (s : List Char) : List Char := (s.reverse.dropWhile isCSpace).reverse

/-- ScpiCommandType (src/scpi_parser.hpp), without the DEBUG_SPI_MODE-only
members. -/
inductive ScpiCommandType where
  | UNKNOWN
  | IDN_QUERY
  | RST
  | SET_VOLTAGE
  | GET_VOLTAGE
  | SET_CURRENT
  | GET_CURRENT
  | SET_CODE
  | SET_SPAN
  | SET_ALL_SPAN
  | UPDATE
  | UPDATE_ALL
  | POWER_DOWN
  | POWER_DOWN_CHIP
  | SET_RESOLUTION
  | GET_RESOLUTION
  | SET_CAL_GAIN
  | GET_CAL_GAIN
  | SET_CAL_OFFSET
  | GET_CAL_OFFSET
  | SET_CAL_ENABLE
  | GET_CAL_ENABLE
  | SET_SERIAL
  | GET_SERIAL
  | CAL_DATA_QUERY
  | CAL_CLEAR
  | CAL_SAVE
  | CAL_LOAD
  | FAULT_QUERY
  | SYST_ERR_QUERY
  | PULSE_LDAC
  deriving DecidableEq, Repr

/-- ScpiCommand (src/scpi_parser.hpp) with its in-class default initializers.
`board_id`/`dac_id`/`channel_id` are `int8_t` in the source; every value ever
stored is `-1` or a single decimal digit, so `Int` is a faithful carrier. -/
structure ScpiCommand where
  type : ScpiCommandType := .UNKNOWN
  is_query : Bool := false
  board_id : Int := -1
  dac_id : Int := -1
  channel_id : Int := -1
  float_value : ℚ := 0
  int_value : Nat := 0
  has_float : Bool := false
  has_int : Bool := false
  string_value : List Char := []
  has_string : Bool := false
  valid : Bool := false
  error_msg : String := ""
  deriving DecidableEq

/-- ScpiParser::parse_common_command.  Returns the C function's boolean result
together with the (possibly mutated) command object. -/
def parse_common_command (cmd : List Char) (result : ScpiCommand) : Bool × ScpiCommand :=
  if cAt cmd 0 ≠ '*' then (false, result)
  else
    let c := cmd.drop 1
    if strncaseeq c "IDN?".data 4 then
      (true, { result with type := .IDN_QUERY, is_query := true, valid := true })
    else if strncaseeq c "RST".data 3 then
      (true, { result with type := .RST, valid := true })
    else (false, result)

/-- ScpiParser::parse_system_command. -/
def parse_system_command (cmd : List Char) (result : ScpiCommand) : Bool × ScpiCommand :=
  if strncaseeq cmd "FAULT?".data 6 then
    (true, { result with type := .FAULT_QUERY, is_query := true, valid := true })
  else if strncaseeq cmd "LDAC".data 4 then
    (true, { result with type := .PULSE_LDAC, valid := true })
  else if strncaseeq cmd "UPDATE:ALL".data 10 then
    (true, { result with type := .UPDATE_ALL, valid := true })
  else if strncaseeq cmd "SYST:ERR?".data 9 then
    (true, { result with type := .SYST_ERR_QUERY, is_query := true, valid := true })
  else if strncaseeq cmd "CAL:DATA?".data 9 then
    (true, { result with type := .CAL_DATA_QUERY, is_query := true, valid := true })
  else if strncaseeq cmd "CAL:CLEAR".data 9 then
    (true, { result with type := .CAL_CLEAR, valid := true })
  else if strncaseeq cmd "CAL:SAVE".data 8 then
    (true, { result with type := .CAL_SAVE, valid := true })
  else if strncaseeq cmd "CAL:LOAD".data 8 then
    (true, { result with type := .CAL_LOAD, valid := true })
  else (false, result)

/-- The `CAL:` sub-branch of the `CH<n>` arm of ScpiParser::parse_board_command
(src/src/scpi_parser.cpp lines 292–357); `p` points just past `"CAL:"`. -/
def parse_cal_subcommand (p : List Char) (result : ScpiCommand) : Bool × ScpiCommand :=
  if strncaseeq p "GAIN".data 4 then
    let p1 := p.drop 4
    if cAt p1 0 = '?' then
      (true, { result with type := .GET_CAL_GAIN, is_query := true, valid := true })
    else
      let result := { result with type := .SET_CAL_GAIN }
      match parse_float (skip_whitespace p1) with
      | none => (false, { result with error_msg := "Invalid gain value" })
      | some v => (true, { result with float_value := v, has_float := true, valid := true })
  else if strncaseeq p "OFFS".data 4 then
    let p1 := p.drop 4
    if cAt p1 0 = '?' then
      (true, { result with type := .GET_CAL_OFFSET, is_query := true, valid := true })
    else
      let result := { result with type := .SET_CAL_OFFSET }
      match parse_float (skip_whitespace p1) with
      | none => (false, { result with error_msg := "Invalid offset value" })
      | some v => (true, { result with float_value := v, has_float := true, valid := true })
  else if strncaseeq p "EN".data 2 then
    let p1 := p.drop 2
    if cAt p1 0 = '?' then
      (true, { result with type := .GET_CAL_ENABLE, is_query := true, valid := true })
    else
      let result := { result with type := .SET_CAL_ENABLE }
      match parse_int (skip_whitespace p1) with
      | none => (false, { result with error_msg := "Invalid enable value (0 or 1)" })
      | some v => (true, { result with int_value := v, has_int := true, valid := true })
  else (false, { result with error_msg := "Unknown calibration command (use GAIN, OFFS, or EN)" })

/-- The per-channel verb arm of ScpiParser::parse_board_command
(src/src/scpi_parser.cpp lines 233–360); `p` points just past the colon that
follows `CH<n>`. -/
def parse_channel_subcommand (p : List Char) (result : ScpiCommand) : Bool × ScpiCommand :=
  if strncaseeq p "VOLT".data 4 then
    let p1 := p.drop 4
    if cAt p1 0 = '?' then
      (true, { result with type := .GET_VOLTAGE, is_query := true, valid := true })
    else
      let result := { result with type := .SET_VOLTAGE }
      match parse_float (skip_whitespace p1) with
      | none => (false, { result with error_msg := "Invalid voltage value" })
      | some v => (true, { result with float_value := v, has_float := true, valid := true })
  else if strncaseeq p "CURR".data 4 then
    let p1 := p.drop 4
    if cAt p1 0 = '?' then
      (true, { result with type := .GET_CURRENT, is_query := true, valid := true })
    else
      let result := { result with type := .SET_CURRENT }
      match parse_float (skip_whitespace p1) with
      | none => (false, { result with error_msg := "Invalid current value" })
      | some v => (true, { result with float_value := v, has_float := true, valid := true })
  else if strncaseeq p "CODE".data 4 then
    let result := { result with type := .SET_CODE }
    match parse_int (skip_whitespace (p.drop 4)) with
    | none => (false, { result with error_msg := "Invalid code value" })
    | some v => (true, { result with int_value := v, has_int := true, valid := true })
  else if strncaseeq p "PDOWN".data 5 then
    (true, { result with type := .POWER_DOWN, valid := true })
  else if strncaseeq p "CAL:".data 4 then
    parse_cal_subcommand (p.drop 4) result
  else (false, { result with error_msg := "Unknown channel command" })

/-- The per-DAC verb arm of ScpiParser::parse_board_command
(src/src/scpi_parser.cpp lines 216–420); `p` points just past the colon that
follows `DAC<n>`. -/
def parse_dac_subcommand (p : List Char) (result : ScpiCommand) : Bool × ScpiCommand :=
  if strncaseeq p "CH".data 2 then
    let ch := extract_index p "CH".data
    if ch < 0 || ch > 4 then
      (false, { result with error_msg := "Invalid channel number (0-4)" })
    else
      let result := { result with channel_id := ch }
      match strchr p ':' with
      | none => (false, { result with error_msg := "Expected command after CH" })
      | some rc => parse_channel_subcommand (rc.drop 1) result
  else if strncaseeq p "SPAN".data 4 then
    let p1 := p.drop 4
    let step : ScpiCommand × List Char :=
      if cAt p1 0 = ':' && strncaseeq (p1.drop 1) "ALL".data 3 then
        ({ result with type := .SET_ALL_SPAN }, p1.drop 4)
      else ({ result with type := .SET_SPAN }, p1)
    let result := step.1
    match parse_int (skip_whitespace step.2) with
    | none => (false, { result with error_msg := "Invalid span value" })
    | some v => (true, { result with int_value := v, has_int := true, valid := true })
  else if strncaseeq p "UPDATE".data 6 then
    (true, { result with type := .UPDATE, valid := true })
  else if strncaseeq p "PDOWN".data 5 then
    (true, { result with type := .POWER_DOWN_CHIP, valid := true })
  else if strncaseeq p "RES".data 3 then
    let p1 := p.drop 3
    if cAt p1 0 = '?' then
      (true, { result with type := .GET_RESOLUTION, is_query := true, valid := true })
    else
      let result := { result with type := .SET_RESOLUTION }
      match parse_int (skip_whitespace p1) with
      | none => (false, { result with error_msg := "Invalid resolution value (12 or 16)" })
      | some v =>
        if v ≠ 12 && v ≠ 16 then
          (false, { result with error_msg := "Resolution must be 12 or 16" })
        else (true, { result with int_value := v, has_int := true, valid := true })
  else (false, { result with error_msg := "Unknown DAC command" })

/-- ScpiParser::parse_board_command.  The board index is hard-coded to `[0,7]`
in the source (with a TODO noting it should follow the configured board
count). -/
def parse_board_command (cmd : List Char) (result : ScpiCommand) : Bool × ScpiCommand :=
  if ¬ strncaseeq cmd "BOARD".data 5 then (false, result)
  else
    let board := extract_index cmd "BOARD".data
    if board < 0 || board > 7 then
      (false, { result with error_msg := "Invalid board number (0-7)" })
    else
      let result := { result with board_id := board }
      match strchr cmd ':' with
      | none => (false, { result with error_msg := "Expected :DAC or :SN after BOARD" })
      | some pc =>
        let p := pc.drop 1
        if strncaseeq p "SN".data 2 then
          let p1 := p.drop 2
          if cAt p1 0 = '?' then
            (true, { result with type := .GET_SERIAL, is_query := true, valid := true })
          else
            let result := { result with type := .SET_SERIAL }
            let sn := trimTrailingWs
              ((skip_whitespace p1).takeWhile (fun c => c ≠ '\n' && c ≠ '\r'))
            if sn.isEmpty then
              (false, { result with error_msg := "Serial number required" })
            else
              (true, { result with string_value := sn, has_string := true, valid := true })
        else if ¬ strncaseeq p "DAC".data 3 then
          (false, { result with error_msg := "Expected DAC<n>" })
        else
          let dac := extract_index p "DAC".data
          if dac < 0 || dac > 2 then
            (false, { result with error_msg := "Invalid DAC number (0-2)" })
          else
            let result := { result with dac_id := dac }
            match strchr p ':' with
            | none => (false, { result with error_msg := "Expected command after DAC" })
            | some qc => parse_dac_subcommand (qc.drop 1) result

/-- ScpiParser::parse.  Note the final branch: when a sub-parser has returned
`false` it may already have stored a specific diagnostic in `error_msg`, and
this line overwrites it with the generic `"Unknown command"` before the
command is returned. -/
def parse (line : List Char) : ScpiCommand :=
  let result : ScpiCommand := {}
  let line := skip_whitespace line
  if line.isEmpty then { result with error_msg := "Empty command" }
  else
    let r1 := parse_common_command line result
    if r1.1 then r1.2
    else
      let r2 := parse_system_command line r1.2
      if r2.1 then r2.2
      else
        let r3 := parse_board_command line r2.2
        if r3.1 then r3.2
        else { r3.2 with error_msg := "Unknown command" }

end Scpi

/-- NUM_BOARDS (src/board_manager.hpp): 1 in the SINGLE_BOARD_MODE build,
8 in the multi-board build. -/
def NUM_BOARDS (single_board_mode : Bool) : Nat :=
  if single_board_mode then 1 else 8

/-- DACS_PER_BOARD (src/board_manager.hpp). -/
def DACS_PER_BOARD : Nat := 3

/-- MAX_CHANNELS_PER_DAC (src/board_manager.hpp). -/
def MAX_CHANNELS_PER_DAC : Nat := 5

/-- SERIAL_NUMBER_MAX_LEN (src/board_manager.hpp). -/
def SERIAL_NUMBER_MAX_LEN : Nat := 32

/-! ## Device protocol encoders -/

/-! DAC_CMD opcodes (src/software/include/dac_device.hpp). -/

namespace DAC_CMD

def WRITE_CODE_N : Nat := 0x0
def UPDATE_N : Nat := 0x1
def WRITE_UPDATE_ALL : Nat := 0x2
def WRITE_UPDATE_N : Nat := 0x3
def POWER_DOWN_N : Nat := 0x4
def POWER_DOWN_CHIP : Nat := 0x5
def WRITE_SPAN_N : Nat := 0x6
def CONFIG : Nat := 0x7
def WRITE_CODE_ALL : Nat := 0x8
def UPDATE_ALL : Nat := 0x9
def WRITE_UPDATE_ALL2 : Nat := 0xA
def MUX : Nat := 0xB
def TOGGLE_SELECT : Nat := 0xC
def GLOBAL_TOGGLE : Nat := 0xD
def WRITE_SPAN_ALL : Nat := 0xE
def NOP : Nat := 0xF

end DAC_CMD

/-- One 24-bit frame as packed by DacDevice::send_command
(src/src/dac_device.cpp): byte0 = ((command & 0x0F) << 4) | (address & 0x0F),
byte1 = (data >> 8) & 0xFF, byte2 = data & 0xFF. -/
structure DacFrame where
  byte0 : Nat
  byte1 : Nat
  byte2 : Nat
  deriving DecidableEq

/-- DacDevice::send_command (src/src/dac_device.cpp). -/
def send_command (command address data : Nat) : DacFrame :=
  ⟨((command &&& 0x0F) <<< 4) ||| (address &&& 0x0F), (data >>> 8) &&& 0xFF, data &&& 0xFF⟩

/-- The 16-bit data field of a frame, as the target chip receives it. -/
def DacFrame.data16 (f : DacFrame) : Nat := (f.byte1 <<< 8) ||| f.byte2

/-! LTC2662 span codes (src/software/include/ltc2662.hpp). -/

namespace LTC2662_SPAN

def HI_Z : Nat := 0x0
def MA_3_125 : Nat := 0x1
def MA_6_25 : Nat := 0x2
def MA_12_5 : Nat := 0x3
def MA_25 : Nat := 0x4
def MA_50 : Nat := 0x5
def MA_100 : Nat := 0x6
def MA_200 : Nat := 0x7
def SWITCH_NEG : Nat := 0x8
def MA_300 : Nat := 0xF

end LTC2662_SPAN

/-- LTC2662_FS_CURRENT (src/software/include/ltc2662.hpp): full-scale output
current in mA per span code; the float table entries are all exactly
representable and are carried as rationals. -/
def LTC2662_FS_CURRENT : List ℚ :=
  [0, 3125/1000, 625/100, 125/10, 25, 50, 100, 200, 0, 0, 0, 0, 0, 0, 0, 300]

/-- Cached mutable state of one LTC2662 chip (src/software/include/ltc2662.hpp):
`span_` models the five-entry `uint8_t span_[NUM_CHANNELS]` array (only indices
below 5 have a C counterpart), plus the configured resolution and the derived
max code, with their in-class default initializers. -/
structure LTC2662State where
  span_ : Nat → Nat := fun _ => 0
  resolution_bits_ : Nat := 16
  max_code_ : Nat := 65535

namespace LTC2662

def NUM_CHANNELS : Nat := 5

/-- LTC2662::setup (src/src/ltc2662.cpp); the SPI handle and device address
carry no modelled state. -/
def setup (resolution_bits : Nat) (st : LTC2662State) : LTC2662State :=
  let rb := if resolution_bits = 12 then 12 else 16
  { st with resolution_bits_ := rb, max_code_ := if rb = 12 then 4095 else 65535 }

/-- LTC2662::set_span (src/src/ltc2662.cpp): transmit the low nibble of
`span_code` in a WRITE_SPAN_N frame, then cache the *unmasked* `span_code`.
Returns the new chip state and the transmitted frame (`none` when the channel
guard rejects the call without any effect). -/
def set_span (st : LTC2662State) (channel span_code : Nat) :
    LTC2662State × Option DacFrame :=
  if channel ≥ NUM_CHANNELS then (st, none)
  else
    ({ st with span_ := fun c => if c = channel then span_code else st.span_ c },
     some (send_command DAC_CMD.WRITE_SPAN_N channel (span_code &&& 0x0F)))

/-- LTC2662::set_span_all (src/src/ltc2662.cpp): one WRITE_SPAN_ALL frame with
the low nibble of `span_code`, then cache the unmasked `span_code` for every
channel (the source loop covers exactly the five array entries). -/
def set_span_all (st : LTC2662State) (span_code : Nat) : LTC2662State × DacFrame :=
  ({ st with span_ := fun _ => span_code },
   send_command DAC_CMD.WRITE_SPAN_ALL 0 (span_code &&& 0x0F))

/-- LTC2662::init (src/src/ltc2662.cpp): default span 3.125 mA on all
channels, then an update-all frame (frame-only, no cached state). -/
def init (st : LTC2662State) : LTC2662State :=
  (set_span_all st LTC2662_SPAN.MA_3_125).1

/-- Chip state after `setup(resolution_bits)` followed by `init()`, the
combination BoardManager uses on every (re-)initialization.  `init` overwrites
every span entry, so the result does not depend on the storage object's prior
state. -/
def setup_init (resolution_bits : Nat) : LTC2662State :=
  init (setup resolution_bits {})

/-- LTC2662::write_and_update (src/src/ltc2662.cpp).  In 12-bit mode the code
is left-shifted by 4 inside a `uint16_t`, hence the mod 2^16. -/
def write_and_update (st : LTC2662State) (channel code : Nat) : Option DacFrame :=
  if channel ≥ NUM_CHANNELS then none
  else
    let code := if st.resolution_bits_ = 12 then (code <<< 4) % 65536 else code
    some (send_command DAC_CMD.WRITE_UPDATE_N channel code)

/-- LTC2662::get_full_scale_ma (src/src/ltc2662.cpp). -/
def get_full_scale_ma (st : LTC2662State) (channel : Nat) : ℚ :=
  if channel ≥ NUM_CHANNELS then 0
  else
    let span := st.span_ channel
    if span > 0x0F then 0 else LTC2662_FS_CURRENT.getD span 0

/-- LTC2662::current_ma_to_code (src/src/ltc2662.cpp lines 78-90).  The final
statement of the C++ function computes the clamped, scaled, rounded code into
a local variable `code` and the function then falls off the end of its
non-void body without returning it (undefined behavior); that path is modelled
as `none`.  The two early returns yield `some 0`.
`current_ma_to_code_local` below is the value the dropped local holds. -/
def current_ma_to_code (st : LTC2662State) (channel : Nat) (current_ma : ℚ) : Option Nat :=
  if channel ≥ NUM_CHANNELS then some 0
  else
    let fs := get_full_scale_ma st channel
    if fs ≤ 0 then some 0
    else none

/-- The value LTC2662::current_ma_to_code computes into its local `code` on
the positive-full-scale path: clamp to [0, fs], then
`(uint16_t)((current_ma / fs) * max_code_ + 0.5f)` — the operand is
nonnegative, so the float-to-integer cast truncation is a floor, i.e. round
half up; it never exceeds max_code_, so the uint16_t cast is value-preserving. -/
def current_ma_to_code_local (st : LTC2662State) (channel : Nat) (current_ma : ℚ) : Nat :=
  let fs := get_full_scale_ma st channel
  let c1 := if current_ma < 0 then 0 else current_ma
  let c2 := if c1 > fs then fs else c1
  (⌊c2 / fs * (st.max_code_ : ℚ) + 1 / 2⌋).toNat

/-- The per-channel loop BoardManager::execute_set_span runs for SPAN:ALL:
`for (ch = 0; ch < get_num_channels(); ch++) set_span(ch, code)`. -/
def set_span_loop (st : LTC2662State) (n code : Nat) : LTC2662State :=
  (List.range n).foldl (fun s ch => (set_span s ch code).1) st

end LTC2662

/-! LTC2664 span codes (src/ltc2664.hpp). -/

namespace LTC2664_SPAN

def V_0_5 : Nat := 0x0
def V_0_10 : Nat := 0x1
def V_PM5 : Nat := 0x2
def V_PM10 : Nat := 0x3
def V_PM2_5 : Nat := 0x4

end LTC2664_SPAN

/-- LTC2664SpanInfo (src/ltc2664.hpp). -/
structure LTC2664SpanInfo where
  min_v : ℚ
  max_v : ℚ
  bipolar : Bool
  deriving DecidableEq

/-- LTC2664_SPAN_INFO (src/ltc2664.hpp). -/
def LTC2664_SPAN_INFO : List LTC2664SpanInfo :=
  [⟨0, 5, false⟩, ⟨0, 10, false⟩, ⟨-5, 5, true⟩, ⟨-10, 10, true⟩, ⟨-5/2, 5/2, true⟩]

/-- Cached mutable state of one LTC2664 chip: the four-entry span cache (only
indices below 4 have a C counterpart) plus resolution and max code as set up
by LTC2664::setup (src/ltc2664.cpp). -/
structure LTC2664State where
  span_ : Nat → Nat := fun _ => 0
  resolution_bits_ : Nat := 16
  max_code_ : Nat := 65535

namespace LTC2664

def NUM_CHANNELS : Nat := 4

/-- LTC2664::setup (src/ltc2664.cpp). -/
def setup (resolution_bits : Nat) (st : LTC2664State) : LTC2664State :=
  let rb := if resolution_bits = 12 then 12 else 16
  { st with resolution_bits_ := rb, max_code_ := if rb = 12 then 4095 else 65535 }

/-- LTC2664::set_span (src/ltc2664.cpp): rejects span codes above V_PM2_5
outright; otherwise transmits the low three bits and caches the code. -/
def set_span (st : LTC2664State) (channel span_code : Nat) :
    LTC2664State × Option DacFrame :=
  if channel ≥ NUM_CHANNELS then (st, none)
  else if span_code > LTC2664_SPAN.V_PM2_5 then (st, none)
  else
    ({ st with span_ := fun c => if c = channel then span_code else st.span_ c },
     some (send_command DAC_CMD.WRITE_SPAN_N channel (span_code &&& 0x07)))

/-- LTC2664::set_span_all (src/ltc2664.cpp). -/
def set_span_all (st : LTC2664State) (span_code : Nat) : LTC2664State × Option DacFrame :=
  if span_code > LTC2664_SPAN.V_PM2_5 then (st, none)
  else
    ({ st with span_ := fun _ => span_code },
     some (send_command DAC_CMD.WRITE_SPAN_ALL 0 (span_code &&& 0x07)))

/-- LTC2664::init (src/ltc2664.cpp): default span ±10V on all channels. -/
def init (st : LTC2664State) : LTC2664State :=
  (set_span_all st LTC2664_SPAN.V_PM10).1

/-- Chip state after `setup(resolution_bits)` + `init()`. -/
def setup_init (resolution_bits : Nat) : LTC2664State :=
  init (setup resolution_bits {})

/-- LTC2664::write_and_update (src/ltc2664.cpp). -/
def write_and_update (st : LTC2664State) (channel code : Nat) : Option DacFrame :=
  if channel ≥ NUM_CHANNELS then none
  else some (send_command DAC_CMD.WRITE_UPDATE_N channel code)

/-- LTC2664::get_min_voltage (src/ltc2664.cpp). -/
def get_min_voltage (st : LTC2664State) (channel : Nat) : ℚ :=
  if channel ≥ NUM_CHANNELS then 0
  else
    let span := st.span_ channel
    if span > LTC2664_SPAN.V_PM2_5 then 0
    else (LTC2664_SPAN_INFO.getD span ⟨0, 0, false⟩).min_v

/-- LTC2664::get_max_voltage (src/ltc2664.cpp). -/
def get_max_voltage (st : LTC2664State) (channel : Nat) : ℚ :=
  if channel ≥ NUM_CHANNELS then 0
  else
    let span := st.span_ channel
    if span > LTC2664_SPAN.V_PM2_5 then 0
    else (LTC2664_SPAN_INFO.getD span ⟨0, 0, false⟩).max_v

/-- LTC2664::voltage_to_code (src/ltc2664.cpp): clamp into the active span,
normalize, scale by max_code_, add 0.5 and truncate (nonnegative, so the cast
truncation is a floor; the value never exceeds max_code_, so the uint16_t cast
is value-preserving). -/
def voltage_to_code (st : LTC2664State) (channel : Nat) (voltage : ℚ) : Nat :=
  if channel ≥ NUM_CHANNELS then 0
  else
    let min_v := get_min_voltage st channel
    let max_v := get_max_voltage st channel
    let range := max_v - min_v
    if range ≤ 0 then 0
    else
      let v1 := if voltage < min_v then min_v else voltage
      let v2 := if v1 > max_v then max_v else v1
      let normalized := (v2 - min_v) / range
      (⌊normalized * (st.max_code_ : ℚ) + 1 / 2⌋).toNat

/-- LTC2664::code_to_voltage (src/ltc2664.cpp). -/
def code_to_voltage (st : LTC2664State) (channel code : Nat) : ℚ :=
  if channel ≥ NUM_CHANNELS then 0
  else
    let min_v := get_min_voltage st channel
    let max_v := get_max_voltage st channel
    let range := max_v - min_v
    if range ≤ 0 then 0
    else min_v + ((code : ℚ) / (st.max_code_ : ℚ)) * range

/-- The per-channel loop BoardManager::execute_set_span runs for SPAN:ALL. -/
def set_span_loop (st : LTC2664State) (n code : Nat) : LTC2664State :=
  (List.range n).foldl (fun s ch => (set_span s ch code).1) st

end LTC2664

/-! ## Fault-bitmap reconstruction -/

namespace IoExpander

/-- IoExpander::read_faults (src/software/src/io_expander.cpp lines 243-288).
`exp1` is the 16-bit GPIO snapshot of the current-DAC fault expander (Port A in
the low byte = boards 0-3, two pins per board; Port B in the high byte =
boards 4-7); `exp2_a` is the 8-bit Port A snapshot of the temperature-fault
expander (pin b = board b).  Fault lines are active-low; `~` on the uint16/
uint8 snapshot is an xor with the all-ones mask of that width.  The result
re-interleaves the pins into the 24-bit logical order bit(3b+slot). -/
def read_faults (exp1 exp2_a : Nat) : Nat :=
  let ltc2662_faults := exp1 ^^^ 0xFFFF
  let ltc2664_faults := exp2_a ^^^ 0xFF
  (List.range 8).foldl
    (fun faults board =>
      let dac_base_index := board * 3
      let fault_pin_base := board * 2
      let dac0_fault := (ltc2662_faults >>> fault_pin_base) &&& 1
      let dac1_fault := (ltc2662_faults >>> (fault_pin_base + 1)) &&& 1
      let dac2_fault := (ltc2664_faults >>> board) &&& 1
      ((faults ||| (dac0_fault <<< dac_base_index))
          ||| (dac1_fault <<< (dac_base_index + 1)))
          ||| (dac2_fault <<< (dac_base_index + 2)))
    0

end IoExpander

/-! ## Calibration persistence (src/cal_storage.cpp, src/include/cal_storage.hpp) -/

namespace CalStorage

def CAL_MAGIC : Nat := 0x47524D43

def CAL_VERSION : Nat := 1

/-- One byte step of CalStorage::calculate_crc16 (CCITT polynomial 0x1021,
MSB-first); `crc` is a uint16_t, so every shift is truncated to 16 bits. -/
def crc16_step (crc byte : Nat) : Nat :=
  let crc := crc ^^^ ((byte % 256) <<< 8)
  (List.range 8).foldl
    (fun c _ =>
      if c &&& 0x8000 ≠ 0 then ((c <<< 1) ^^^ 0x1021) &&& 0xFFFF
      else (c <<< 1) &&& 0xFFFF)
    crc

/-- CalStorage::calculate_crc16: initial value 0xFFFF, then one `crc16_step`
per payload byte. -/
def calculate_crc16 (data : List Nat) : Nat := data.foldl crc16_step 0xFFFF

end CalStorage

/-- Stored per-channel calibration entry
(FlashCalibrationData::ChannelCalData, src/include/cal_storage.hpp). -/
structure ChannelCalData where
  gain : ℚ := 1
  offset : ℚ := 0
  enabled : Nat := 0
  deriving DecidableEq

/-- The flash-resident calibration record (FlashCalibrationData,
src/include/cal_storage.hpp): the 8-byte header {magic, version, checksum} and
the payload that follows it.  `payload_bytes` stands for the raw bytes from
`serial_numbers` to the end of the packed struct — the exact region
`calculate_crc16` runs over; `serial_numbers` and `channels` are the decoded
view of that same region, which is what `load_from_flash` copies field by
field.  (The IEEE-754/packed-struct byte layout itself is memory layout and is
not re-modelled; every claim below depends only on the header validation and
on which decoded fields are copied where.) -/
structure FlashRecord where
  magic : Nat
  version : Nat
  checksum : Nat
  payload_bytes : List Nat
  serial_numbers : Nat → List Char
  channels : Nat → Nat → Nat → ChannelCalData

namespace CalStorage

/-- CalStorage::has_valid_data: magic, then version, then CRC-16 of the
payload region compared with the stored checksum. -/
def has_valid_data (flash : FlashRecord) : Bool :=
  if flash.magic ≠ CAL_MAGIC then false
  else if flash.version ≠ CAL_VERSION then false
  else calculate_crc16 flash.payload_bytes = flash.checksum

/-- The calibration sector right after CalStorage::erase_flash: every byte is
0xFF, so the decoded header is all-ones and `has_valid_data` fails already on
the magic check.  (sizeof(FlashCalibrationData) = 8 + 256 + 1080 + 256 = 1600,
so 1592 payload bytes follow the header.)  The decoded serial/channel views of
an erased sector are never read, because validation fails first; they are
represented by empty/default values. -/
def erased_flash : FlashRecord where
  magic := 0xFFFFFFFF
  version := 0xFFFF
  checksum := 0xFFFF
  payload_bytes := List.replicate 1592 0xFF
  serial_numbers := fun _ => []
  channels := fun _ _ _ => {}

end CalStorage

/-! ## Addressing and dispatch (src/board_manager.cpp, src/board_manager.hpp) -/

/-- ChannelCalibration (src/board_manager.hpp) with its default member
initializers: gain 1.0, offset 0.0, disabled. -/
structure ChannelCalibration where
  gain : ℚ := 1
  offset : ℚ := 0
  enabled : Bool := false
  deriving DecidableEq

/-- DEFAULT_CURRENT_DAC_RESOLUTION (src/board_manager.hpp). -/
def DEFAULT_CURRENT_DAC_RESOLUTION : Nat := 16

/-- DEFAULT_VOLTAGE_DAC_RESOLUTION (src/board_manager.hpp). -/
def DEFAULT_VOLTAGE_DAC_RESOLUTION : Nat := 12

/-- Live state owned by BoardManager (src/board_manager.hpp).  The fixed-size
C arrays (sized by NUM_BOARDS of the build) are modelled as total functions;
only indices below the array bounds have a physical counterpart, and the C9
analysis below recovers the raw indices of the accesses the dispatch layer
makes without a bounds check. -/
structure BoardManager where
  current_dacs_ : Nat → Nat → Option LTC2662State
  voltage_dacs_ : Nat → Option LTC2664State
  resolution_ : Nat → Nat → Nat
  serial_numbers_ : Nat → List Char
  calibration_ : Nat → Nat → Nat → ChannelCalibration

namespace BoardManager

/-- BoardManager::BoardManager (the constructor, src/board_manager.cpp): null
device pointers, default resolutions (16-bit current, 12-bit voltage), empty
serial numbers, default calibration on every entry the loops touch. -/
def construct : BoardManager where
  current_dacs_ := fun _ _ => none
  voltage_dacs_ := fun _ => none
  resolution_ := fun _ dac =>
    if dac < 2 then DEFAULT_CURRENT_DAC_RESOLUTION else DEFAULT_VOLTAGE_DAC_RESOLUTION
  serial_numbers_ := fun _ => []
  calibration_ := fun _ _ _ => {}

/-- BoardManager::set_serial_number: bounds-checked; strncpy truncates to
SERIAL_NUMBER_MAX_LEN - 1 characters. -/
def set_serial_number (sbm : Bool) (mgr : BoardManager) (board : Nat)
    (serial : List Char) : BoardManager :=
  if board ≥ NUM_BOARDS sbm then mgr
  else
    { mgr with serial_numbers_ := fun b =>
        if b = board then serial.take (SERIAL_NUMBER_MAX_LEN - 1)
        else mgr.serial_numbers_ b }

/-- BoardManager::get_serial_number. -/
def get_serial_number (sbm : Bool) (mgr : BoardManager) (board : Nat) : List Char :=
  if board ≥ NUM_BOARDS sbm then [] else mgr.serial_numbers_ board

/-- BoardManager::set_cal_gain. -/
def set_cal_gain (sbm : Bool) (mgr : BoardManager) (board dac channel : Nat)
    (gain : ℚ) : BoardManager :=
  if board ≥ NUM_BOARDS sbm ∨ dac ≥ DACS_PER_BOARD ∨ channel ≥ MAX_CHANNELS_PER_DAC then mgr
  else
    { mgr with calibration_ := fun b d c =>
        if b = board ∧ d = dac ∧ c = channel then { mgr.calibration_ b d c with gain := gain }
        else mgr.calibration_ b d c }

/-- BoardManager::set_cal_offset. -/
def set_cal_offset (sbm : Bool) (mgr : BoardManager) (board dac channel : Nat)
    (offset : ℚ) : BoardManager :=
  if board ≥ NUM_BOARDS sbm ∨ dac ≥ DACS_PER_BOARD ∨ channel ≥ MAX_CHANNELS_PER_DAC then mgr
  else
    { mgr with calibration_ := fun b d c =>
        if b = board ∧ d = dac ∧ c = channel then { mgr.calibration_ b d c with offset := offset }
        else mgr.calibration_ b d c }

/-- BoardManager::set_cal_enable. -/
def set_cal_enable (sbm : Bool) (mgr : BoardManager) (board dac channel : Nat)
    (enable : Bool) : BoardManager :=
  if board ≥ NUM_BOARDS sbm ∨ dac ≥ DACS_PER_BOARD ∨ channel ≥ MAX_CHANNELS_PER_DAC then mgr
  else
    { mgr with calibration_ := fun b d c =>
        if b = board ∧ d = dac ∧ c = channel then { mgr.calibration_ b d c with enabled := enable }
        else mgr.calibration_ b d c }

/-- BoardManager::get_cal_gain (default 1.0 outside the arrays). -/
def get_cal_gain (sbm : Bool) (mgr : BoardManager) (board dac channel : Nat) : ℚ :=
  if board ≥ NUM_BOARDS sbm ∨ dac ≥ DACS_PER_BOARD ∨ channel ≥ MAX_CHANNELS_PER_DAC then 1
  else (mgr.calibration_ board dac channel).gain

/-- BoardManager::get_cal_offset. -/
def get_cal_offset (sbm : Bool) (mgr : BoardManager) (board dac channel : Nat) : ℚ :=
  if board ≥ NUM_BOARDS sbm ∨ dac ≥ DACS_PER_BOARD ∨ channel ≥ MAX_CHANNELS_PER_DAC then 0
  else (mgr.calibration_ board dac channel).offset

/-- BoardManager::get_cal_enable. -/
def get_cal_enable (sbm : Bool) (mgr : BoardManager) (board dac channel : Nat) : Bool :=
  if board ≥ NUM_BOARDS sbm ∨ dac ≥ DACS_PER_BOARD ∨ channel ≥ MAX_CHANNELS_PER_DAC then false
  else (mgr.calibration_ board dac channel).enabled

/-- BoardManager::get_calibration: nullptr (none) outside the arrays. -/
def get_calibration (sbm : Bool) (mgr : BoardManager) (board dac channel : Nat) :
    Option ChannelCalibration :=
  if board ≥ NUM_BOARDS sbm ∨ dac ≥ DACS_PER_BOARD ∨ channel ≥ MAX_CHANNELS_PER_DAC then none
  else some (mgr.calibration_ board dac channel)

/-- BoardManager::clear_all_calibration: the loops reset every serial number
and calibration entry within the configured board count to defaults. -/
def clear_all_calibration (sbm : Bool) (mgr : BoardManager) : BoardManager :=
  { mgr with
    serial_numbers_ := fun b => if b < NUM_BOARDS sbm then [] else mgr.serial_numbers_ b
    calibration_ := fun b d c =>
      if b < NUM_BOARDS sbm ∧ d < DACS_PER_BOARD ∧ c < MAX_CHANNELS_PER_DAC then {}
      else mgr.calibration_ b d c }

end BoardManager

namespace CalStorage

/-- CalStorage::load_from_flash: `has_valid_data` first; on failure return
false with the manager untouched.  On success the loops copy every serial
number (through set_serial_number, which truncates to 31 characters) and every
calibration entry within the configured bounds from the decoded record into
live state, and return true. -/
def load_from_flash (sbm : Bool) (flash : FlashRecord) (mgr : BoardManager) :
    Bool × BoardManager :=
  if ¬ has_valid_data flash then (false, mgr)
  else
    (true,
     { mgr with
       serial_numbers_ := fun b =>
         if b < NUM_BOARDS sbm then (flash.serial_numbers b).take (SERIAL_NUMBER_MAX_LEN - 1)
         else mgr.serial_numbers_ b
       calibration_ := fun b d c =>
         if b < NUM_BOARDS sbm ∧ d < DACS_PER_BOARD ∧ c < MAX_CHANNELS_PER_DAC then
           { gain := (flash.channels b d c).gain
             offset := (flash.channels b d c).offset
             enabled := (flash.channels b d c).enabled ≠ 0 }
         else mgr.calibration_ b d c })

/-- CalStorage::save_to_flash: build the record from live state (magic,
version, serial numbers, calibration entries), CRC the payload region, erase
and program the sector, then re-validate with has_valid_data.  Flash
programming is modelled as ideal (written bytes read back exactly).  The raw
byte serialization of the payload is not re-modelled (see FlashRecord); the
record carries an empty byte region with the checksum computed over it, which
keeps the stored record self-consistent exactly as a real programmed sector
is. -/
def save_to_flash (sbm : Bool) (mgr : BoardManager) : FlashRecord × Bool :=
  let cal_data : FlashRecord :=
    { magic := CAL_MAGIC
      version := CAL_VERSION
      payload_bytes := []
      checksum := calculate_crc16 []
      serial_numbers := fun b =>
        if b < NUM_BOARDS sbm then (mgr.serial_numbers_ b).take (SERIAL_NUMBER_MAX_LEN - 1)
        else []
      channels := fun b d c =>
        if b < NUM_BOARDS sbm ∧ d < DACS_PER_BOARD ∧ c < MAX_CHANNELS_PER_DAC then
          { gain := (mgr.calibration_ b d c).gain
            offset := (mgr.calibration_ b d c).offset
            enabled := if (mgr.calibration_ b d c).enabled then 1 else 0 }
        else {} }
  (cal_data, has_valid_data cal_data)

end CalStorage

namespace BoardManager

/-- BoardManager::init_all (src/board_manager.cpp lines 35-59): set up and
initialize every device from the per-slot resolution configuration, then load
calibration data from flash if a valid record exists. -/
def init_all (sbm : Bool) (flash : FlashRecord) (mgr : BoardManager) : BoardManager :=
  let mgr1 :=
    { mgr with
      current_dacs_ := fun b d =>
        if b < NUM_BOARDS sbm ∧ d < 2 then some (LTC2662.setup_init (mgr.resolution_ b d))
        else mgr.current_dacs_ b d
      voltage_dacs_ := fun b =>
        if b < NUM_BOARDS sbm then some (LTC2664.setup_init (mgr.resolution_ b 2))
        else mgr.voltage_dacs_ b }
  (CalStorage.load_from_flash sbm flash mgr1).2

/-- BoardManager::reset_all (src/board_manager.cpp lines 61-71):
power_down_chip on every device — a frame-only operation that changes no
cached state — followed by a full init_all, including the load_from_flash call
at init_all's end. -/
def reset_all (sbm : Bool) (flash : FlashRecord) (mgr : BoardManager) : BoardManager :=
  init_all sbm flash mgr

end BoardManager

/-- A DacDevice* as dispatch sees it: one of the two concrete device kinds
(the chip set is a closed pair in this firmware). -/
inductive DacRef where
  | cur (st : LTC2662State)
  | vol (st : LTC2664State)

/-- DacDevice::get_num_channels. -/
def DacRef.get_num_channels : DacRef → Nat
  | .cur _ => LTC2662.NUM_CHANNELS
  | .vol _ => LTC2664.NUM_CHANNELS

/-- DacDevice::get_max_code. -/
def DacRef.get_max_code : DacRef → Nat
  | .cur st => st.max_code_
  | .vol st => st.max_code_

/-- DacDevice::get_resolution. -/
def DacRef.get_resolution : DacRef → Nat
  | .cur st => st.resolution_bits_
  | .vol st => st.resolution_bits_

namespace BoardManager

/-- BoardManager::get_dac: bounds-checked resolution of (board, dac) to a
device pointer; none models nullptr. -/
def get_dac (sbm : Bool) (mgr : BoardManager) (board dac : Nat) : Option DacRef :=
  if board ≥ NUM_BOARDS sbm ∨ dac ≥ DACS_PER_BOARD then none
  else if dac < 2 then (mgr.current_dacs_ board dac).map .cur
  else (mgr.voltage_dacs_ board).map .vol

/-- Store a new LTC2662 chip state back at (board, dac). -/
def with_current_dac (mgr : BoardManager) (board dac : Nat) (st : LTC2662State) :
    BoardManager :=
  { mgr with current_dacs_ := fun b d =>
      if b = board ∧ d = dac then some st else mgr.current_dacs_ b d }

/-- Store a new LTC2664 chip state back at `board`. -/
def with_voltage_dac (mgr : BoardManager) (board : Nat) (st : LTC2664State) :
    BoardManager :=
  { mgr with voltage_dacs_ := fun b =>
      if b = board then some st else mgr.voltage_dacs_ b }

/-- BoardManager::execute_idn. -/
def execute_idn : String := "GreyMatter,DAC Controller,001,0.1"

/-- BoardManager::execute_set_voltage (src/board_manager.cpp lines 124-153).
NOTE: unlike execute_set_code, the source subscripts
`voltage_dacs_[cmd.board_id]` directly, without checking
`cmd.board_id < NUM_BOARDS`; the model's total function absorbs that read, and
`set_voltage_board_index` below recovers the raw index for the bounds analysis
(claim C9).  The conversion and the WRITE_UPDATE_N frame change no cached
state; the response alone is the observable modelled here. -/
def execute_set_voltage (sbm : Bool) (mgr : BoardManager) (cmd : Scpi.ScpiCommand) :
    String :=
  if cmd.board_id < 0 ∨ cmd.dac_id < 0 ∨ cmd.channel_id < 0 then "ERROR:Missing address"
  else if cmd.dac_id ≠ 2 then "ERROR:Use CURR for current DACs"
  else
    match mgr.voltage_dacs_ cmd.board_id.toNat with
    | none => "ERROR:DAC not initialized"
    | some dac =>
      if cmd.channel_id ≥ (LTC2664.NUM_CHANNELS : Int) then "ERROR:Invalid channel"
      else
        let _ := dac
        let _ := get_calibration sbm mgr cmd.board_id.toNat cmd.dac_id.toNat cmd.channel_id.toNat
        "OK"

/-- The raw index with which BoardManager::execute_set_voltage subscripts
`voltage_dacs_` (an array of NUM_BOARDS pointers), when control reaches that
access: every guard the source places before the subscript, and nothing else. -/
def set_voltage_board_index (cmd : Scpi.ScpiCommand) : Option Int :=
  if cmd.board_id < 0 ∨ cmd.dac_id < 0 ∨ cmd.channel_id < 0 then none
  else if cmd.dac_id ≠ 2 then none
  else some cmd.board_id

/-- BoardManager::execute_set_current (src/board_manager.cpp lines 155-184);
same unchecked `current_dacs_[cmd.board_id][cmd.dac_id]` subscript, recovered
by `set_current_board_index` below. -/
def execute_set_current (sbm : Bool) (mgr : BoardManager) (cmd : Scpi.ScpiCommand) :
    String :=
  if cmd.board_id < 0 ∨ cmd.dac_id < 0 ∨ cmd.channel_id < 0 then "ERROR:Missing address"
  else if cmd.dac_id = 2 then "ERROR:Use VOLT for voltage DACs"
  else
    match mgr.current_dacs_ cmd.board_id.toNat cmd.dac_id.toNat with
    | none => "ERROR:DAC not initialized"
    | some dac =>
      if cmd.channel_id ≥ (LTC2662.NUM_CHANNELS : Int) then "ERROR:Invalid channel"
      else
        let _ := dac
        let _ := get_calibration sbm mgr cmd.board_id.toNat cmd.dac_id.toNat cmd.channel_id.toNat
        "OK"

/-- The raw board index with which BoardManager::execute_set_current
subscripts `current_dacs_` (an array of NUM_BOARDS rows), when control reaches
that access. -/
def set_current_board_index (cmd : Scpi.ScpiCommand) : Option Int :=
  if cmd.board_id < 0 ∨ cmd.dac_id < 0 ∨ cmd.channel_id < 0 then none
  else if cmd.dac_id = 2 then none
  else some cmd.board_id

/-- BoardManager::execute_set_code (src/board_manager.cpp lines 186-210):
address guards, bounds-checked get_dac, channel check, then the resolution
ceiling check with its diagnostic carrying the max code and the bit depth. -/
def execute_set_code (sbm : Bool) (mgr : BoardManager) (cmd : Scpi.ScpiCommand) :
    String :=
  if cmd.board_id < 0 ∨ cmd.dac_id < 0 ∨ cmd.channel_id < 0 then "ERROR:Missing address"
  else
    match get_dac sbm mgr cmd.board_id.toNat cmd.dac_id.toNat with
    | none => "ERROR:DAC not initialized"
    | some dac =>
      if cmd.channel_id ≥ (dac.get_num_channels : Int) then "ERROR:Invalid channel"
      else if cmd.int_value > dac.get_max_code then
        "ERROR:Code exceeds max (" ++ toString dac.get_max_code ++ " for " ++
          toString dac.get_resolution ++ "-bit)"
      else "OK"

/-- BoardManager::execute_set_span (src/board_manager.cpp lines 212-236).
`static_cast<uint8_t>(cmd.int_value)` is the mod-256 truncation.  SPAN:ALL
runs the per-channel set_span loop; the single-channel form requires a channel
address.  The device's span cache is the state this changes. -/
def execute_set_span (sbm : Bool) (mgr : BoardManager) (cmd : Scpi.ScpiCommand) :
    String × BoardManager :=
  if cmd.board_id < 0 ∨ cmd.dac_id < 0 then ("ERROR:Missing address", mgr)
  else
    let b := cmd.board_id.toNat
    let d := cmd.dac_id.toNat
    match get_dac sbm mgr b d with
    | none => ("ERROR:DAC not initialized", mgr)
    | some dac =>
      let span8 := cmd.int_value % 256
      if cmd.type = Scpi.ScpiCommandType.SET_ALL_SPAN then
        match dac with
        | .cur st => ("OK", mgr.with_current_dac b d (LTC2662.set_span_loop st LTC2662.NUM_CHANNELS span8))
        | .vol st => ("OK", mgr.with_voltage_dac b (LTC2664.set_span_loop st LTC2664.NUM_CHANNELS span8))
      else if cmd.channel_id < 0 then ("ERROR:Missing channel", mgr)
      else
        match dac with
        | .cur st => ("OK", mgr.with_current_dac b d (LTC2662.set_span st cmd.channel_id.toNat span8).1)
        | .vol st => ("OK", mgr.with_voltage_dac b (LTC2664.set_span st cmd.channel_id.toNat span8).1)

/-- BoardManager::execute_update (src/board_manager.cpp lines 238-261):
update-all / per-device update and the global LDAC pulse are frame-only;
only the guards and responses are observable here. -/
def execute_update (sbm : Bool) (mgr : BoardManager) (cmd : Scpi.ScpiCommand) : String :=
  if cmd.type = Scpi.ScpiCommandType.UPDATE_ALL then "OK"
  else if cmd.board_id < 0 ∨ cmd.dac_id < 0 then "ERROR:Missing address"
  else
    match get_dac sbm mgr cmd.board_id.toNat cmd.dac_id.toNat with
    | none => "ERROR:DAC not initialized"
    | some _ => "OK"

/-- BoardManager::execute_power_down (src/board_manager.cpp lines 263-283). -/
def execute_power_down (sbm : Bool) (mgr : BoardManager) (cmd : Scpi.ScpiCommand) : String :=
  if cmd.board_id < 0 ∨ cmd.dac_id < 0 then "ERROR:Missing address"
  else
    match get_dac sbm mgr cmd.board_id.toNat cmd.dac_id.toNat with
    | none => "ERROR:DAC not initialized"
    | some _ =>
      if cmd.type = Scpi.ScpiCommandType.POWER_DOWN_CHIP then "OK"
      else if cmd.channel_id < 0 then "ERROR:Missing channel"
      else "OK"

/-- BoardManager::execute_get_resolution (src/board_manager.cpp lines 285-298). -/
def execute_get_resolution (sbm : Bool) (mgr : BoardManager) (cmd : Scpi.ScpiCommand) :
    String :=
  if cmd.board_id < 0 ∨ cmd.dac_id < 0 then "ERROR:Missing address"
  else
    match get_dac sbm mgr cmd.board_id.toNat cmd.dac_id.toNat with
    | none => "ERROR:DAC not initialized"
    | some dac => toString dac.get_resolution

/-- BoardManager::set_resolution (src/board_manager.cpp lines 90-93). -/
def set_resolution (sbm : Bool) (mgr : BoardManager) (board dac resolution_bits : Nat) :
    BoardManager :=
  if board ≥ NUM_BOARDS sbm ∨ dac ≥ DACS_PER_BOARD then mgr
  else
    { mgr with resolution_ := fun b d =>
        if b = board ∧ d = dac then (if resolution_bits = 12 then 12 else 16)
        else mgr.resolution_ b d }

/-- BoardManager::execute_set_resolution (src/board_manager.cpp lines
300-323): bounds check, store the new resolution, then re-setup and re-init
the one affected device with it. -/
def execute_set_resolution (sbm : Bool) (mgr : BoardManager) (cmd : Scpi.ScpiCommand) :
    String × BoardManager :=
  if cmd.board_id < 0 ∨ cmd.dac_id < 0 then ("ERROR:Missing address", mgr)
  else if cmd.board_id ≥ (NUM_BOARDS sbm : Int) ∨ cmd.dac_id ≥ (DACS_PER_BOARD : Int) then
    ("ERROR:Invalid board/DAC", mgr)
  else
    let b := cmd.board_id.toNat
    let d := cmd.dac_id.toNat
    let new_res := cmd.int_value % 256
    let mgr := set_resolution sbm mgr b d new_res
    if d < 2 then ("OK", mgr.with_current_dac b d (LTC2662.setup_init new_res))
    else ("OK", mgr.with_voltage_dac b (LTC2664.setup_init new_res))

/-- BoardManager::execute_set_serial (src/board_manager.cpp lines 412-418). -/
def execute_set_serial (sbm : Bool) (mgr : BoardManager) (cmd : Scpi.ScpiCommand) :
    String × BoardManager :=
  if cmd.board_id < 0 ∨ cmd.board_id ≥ (NUM_BOARDS sbm : Int) then ("ERROR:Invalid board", mgr)
  else ("OK", set_serial_number sbm mgr cmd.board_id.toNat cmd.string_value)

/-- BoardManager::execute_get_serial (src/board_manager.cpp lines 420-429). -/
def execute_get_serial (sbm : Bool) (mgr : BoardManager) (cmd : Scpi.ScpiCommand) : String :=
  if cmd.board_id < 0 ∨ cmd.board_id ≥ (NUM_BOARDS sbm : Int) then "ERROR:Invalid board"
  else
    let sn := get_serial_number sbm mgr cmd.board_id.toNat
    if sn.isEmpty then "(not set)" else String.mk sn

end BoardManager

/-- printf "%.6f" on the exact rational: sign, integer part, six fractional
digits.  (The firmware prints C floats; the tie-breaking of binary float
formatting is approximated by round-half-up on the exact value.  No claim
below depends on this formatter.) -/
def formatFixed6 (q : ℚ) : String :=
  let neg := q < 0
  let a : ℚ := if neg then -q else q
  let n : Nat := (⌊a * 1000000 + 1 / 2⌋).toNat
  let fpStr := toString (n % 1000000)
  let pad := String.mk (List.replicate (6 - fpStr.length) '0')
  (if neg then "-" else "") ++ toString (n / 1000000) ++ "." ++ pad ++ fpStr

/-- One uppercase hexadecimal digit. -/
def hexDigitUpper (n : Nat) : Char :=
  if n < 10 then Char.ofNat (48 + n) else Char.ofNat (55 + n)

/-- printf "%06lX" for values below 2^24: six uppercase hex digits. -/
def hex6 (n : Nat) : String :=
  String.mk ((List.range 6).map (fun i => hexDigitUpper ((n >>> ((5 - i) * 4)) &&& 0xF)))

/-- External hardware inputs a command can read: the shared FAULT interrupt
line (SpiManager::is_fault_active) and the raw expander snapshots read_faults
consumes. -/
structure HwInputs where
  fault_active : Bool := false
  fault_exp1 : Nat := 0xFFFF
  temp_exp2_a : Nat := 0xFF

namespace BoardManager

/-- BoardManager::execute_fault_query (src/board_manager.cpp lines 104-122):
single-board builds can only report any-fault/no-fault; multi-board builds
format the 24-bit remapped bitmap as FAULT:0x%06lX. -/
def execute_fault_query (sbm : Bool) (hw : HwInputs) : String :=
  if sbm then
    if hw.fault_active then "FAULT:ACTIVE" else "OK"
  else
    if hw.fault_active then
      "FAULT:0x" ++ hex6 (IoExpander.read_faults hw.fault_exp1 hw.temp_exp2_a)
    else "OK"

/-- BoardManager::execute_set_cal_gain (src/board_manager.cpp lines 431-441). -/
def execute_set_cal_gain (sbm : Bool) (mgr : BoardManager) (cmd : Scpi.ScpiCommand) :
    String × BoardManager :=
  if cmd.board_id < 0 ∨ cmd.dac_id < 0 ∨ cmd.channel_id < 0 then ("ERROR:Missing address", mgr)
  else
    match get_dac sbm mgr cmd.board_id.toNat cmd.dac_id.toNat with
    | none => ("ERROR:Invalid channel", mgr)
    | some dac =>
      if cmd.channel_id ≥ (dac.get_num_channels : Int) then ("ERROR:Invalid channel", mgr)
      else
        ("OK", set_cal_gain sbm mgr cmd.board_id.toNat cmd.dac_id.toNat cmd.channel_id.toNat
          cmd.float_value)

/-- BoardManager::execute_get_cal_gain (src/board_manager.cpp lines 443-454). -/
def execute_get_cal_gain (sbm : Bool) (mgr : BoardManager) (cmd : Scpi.ScpiCommand) : String :=
  if cmd.board_id < 0 ∨ cmd.dac_id < 0 ∨ cmd.channel_id < 0 then "ERROR:Missing address"
  else
    match get_dac sbm mgr cmd.board_id.toNat cmd.dac_id.toNat with
    | none => "ERROR:Invalid channel"
    | some dac =>
      if cmd.channel_id ≥ (dac.get_num_channels : Int) then "ERROR:Invalid channel"
      else formatFixed6 (get_cal_gain sbm mgr cmd.board_id.toNat cmd.dac_id.toNat cmd.channel_id.toNat)

/-- BoardManager::execute_set_cal_offset (src/board_manager.cpp lines 456-466). -/
def execute_set_cal_offset (sbm : Bool) (mgr : BoardManager) (cmd : Scpi.ScpiCommand) :
    String × BoardManager :=
  if cmd.board_id < 0 ∨ cmd.dac_id < 0 ∨ cmd.channel_id < 0 then ("ERROR:Missing address", mgr)
  else
    match get_dac sbm mgr cmd.board_id.toNat cmd.dac_id.toNat with
    | none => ("ERROR:Invalid channel", mgr)
    | some dac =>
      if cmd.channel_id ≥ (dac.get_num_channels : Int) then ("ERROR:Invalid channel", mgr)
      else
        ("OK", set_cal_offset sbm mgr cmd.board_id.toNat cmd.dac_id.toNat cmd.channel_id.toNat
          cmd.float_value)

/-- BoardManager::execute_get_cal_offset (src/board_manager.cpp lines 468-479). -/
def execute_get_cal_offset (sbm : Bool) (mgr : BoardManager) (cmd : Scpi.ScpiCommand) : String :=
  if cmd.board_id < 0 ∨ cmd.dac_id < 0 ∨ cmd.channel_id < 0 then "ERROR:Missing address"
  else
    match get_dac sbm mgr cmd.board_id.toNat cmd.dac_id.toNat with
    | none => "ERROR:Invalid channel"
    | some dac =>
      if cmd.channel_id ≥ (dac.get_num_channels : Int) then "ERROR:Invalid channel"
      else formatFixed6 (get_cal_offset sbm mgr cmd.board_id.toNat cmd.dac_id.toNat cmd.channel_id.toNat)

/-- BoardManager::execute_set_cal_enable (src/board_manager.cpp lines 481-491). -/
def execute_set_cal_enable (sbm : Bool) (mgr : BoardManager) (cmd : Scpi.ScpiCommand) :
    String × BoardManager :=
  if cmd.board_id < 0 ∨ cmd.dac_id < 0 ∨ cmd.channel_id < 0 then ("ERROR:Missing address", mgr)
  else
    match get_dac sbm mgr cmd.board_id.toNat cmd.dac_id.toNat with
    | none => ("ERROR:Invalid channel", mgr)
    | some dac =>
      if cmd.channel_id ≥ (dac.get_num_channels : Int) then ("ERROR:Invalid channel", mgr)
      else
        ("OK", set_cal_enable sbm mgr cmd.board_id.toNat cmd.dac_id.toNat cmd.channel_id.toNat
          (cmd.int_value ≠ 0))

/-- BoardManager::execute_get_cal_enable (src/board_manager.cpp lines 493-502). -/
def execute_get_cal_enable (sbm : Bool) (mgr : BoardManager) (cmd : Scpi.ScpiCommand) : String :=
  if cmd.board_id < 0 ∨ cmd.dac_id < 0 ∨ cmd.channel_id < 0 then "ERROR:Missing address"
  else
    match get_dac sbm mgr cmd.board_id.toNat cmd.dac_id.toNat with
    | none => "ERROR:Invalid channel"
    | some dac =>
      if cmd.channel_id ≥ (dac.get_num_channels : Int) then "ERROR:Invalid channel"
      else if get_cal_enable sbm mgr cmd.board_id.toNat cmd.dac_id.toNat cmd.channel_id.toNat
        then "1" else "0"

/-- BoardManager::export_calibration_data (src/board_manager.cpp lines
384-410): one BOARD header with its serial per board, then every non-default
calibration entry. -/
def export_calibration_data (sbm : Bool) (mgr : BoardManager) : String :=
  String.join ((List.range (NUM_BOARDS sbm)).map (fun board =>
    "BOARD" ++ toString board ++ ":SN=" ++ String.mk (mgr.serial_numbers_ board) ++ "\n" ++
    String.join ((List.range DACS_PER_BOARD).map (fun dac =>
      let num_ch := if dac < 2 then LTC2662.NUM_CHANNELS else LTC2664.NUM_CHANNELS
      String.join ((List.range num_ch).map (fun ch =>
        let cal := mgr.calibration_ board dac ch
        if cal.enabled || cal.gain ≠ 1 || cal.offset ≠ 0 then
          "  DAC" ++ toString dac ++ ":CH" ++ toString ch ++ ":G=" ++ formatFixed6 cal.gain ++
            ",O=" ++ formatFixed6 cal.offset ++ ",E=" ++ (if cal.enabled then "1" else "0") ++ "\n"
        else ""))))))

/-- BoardManager::execute (src/board_manager.cpp lines 529-623): the dispatch
switch.  Besides the response it threads the live manager state and the
calibration flash sector (touched by RST via init_all, and by the CAL:SAVE /
CAL:CLEAR / CAL:LOAD commands); FAULT? reads the hardware inputs. -/
def execute (sbm : Bool) (hw : HwInputs) (mgr : BoardManager) (flash : FlashRecord)
    (cmd : Scpi.ScpiCommand) : String × BoardManager × FlashRecord :=
  if cmd.valid = false then ("ERROR:" ++ cmd.error_msg, mgr, flash)
  else
    match cmd.type with
    | .IDN_QUERY => (execute_idn, mgr, flash)
    | .RST => ("OK", reset_all sbm flash mgr, flash)
    | .FAULT_QUERY => (execute_fault_query sbm hw, mgr, flash)
    | .SET_VOLTAGE => (execute_set_voltage sbm mgr cmd, mgr, flash)
    | .SET_CURRENT => (execute_set_current sbm mgr cmd, mgr, flash)
    | .SET_CODE => (execute_set_code sbm mgr cmd, mgr, flash)
    | .SET_SPAN | .SET_ALL_SPAN =>
      let r := execute_set_span sbm mgr cmd
      (r.1, r.2, flash)
    | .UPDATE | .UPDATE_ALL => (execute_update sbm mgr cmd, mgr, flash)
    | .POWER_DOWN | .POWER_DOWN_CHIP => (execute_power_down sbm mgr cmd, mgr, flash)
    | .GET_RESOLUTION => (execute_get_resolution sbm mgr cmd, mgr, flash)
    | .SET_RESOLUTION =>
      let r := execute_set_resolution sbm mgr cmd
      (r.1, r.2, flash)
    | .PULSE_LDAC => ("OK", mgr, flash)
    | .SYST_ERR_QUERY => ("0,\"No error\"", mgr, flash)
    | .GET_VOLTAGE | .GET_CURRENT => ("ERROR:Query not implemented", mgr, flash)
    | .SET_SERIAL =>
      let r := execute_set_serial sbm mgr cmd
      (r.1, r.2, flash)
    | .GET_SERIAL => (execute_get_serial sbm mgr cmd, mgr, flash)
    | .SET_CAL_GAIN =>
      let r := execute_set_cal_gain sbm mgr cmd
      (r.1, r.2, flash)
    | .GET_CAL_GAIN => (execute_get_cal_gain sbm mgr cmd, mgr, flash)
    | .SET_CAL_OFFSET =>
      let r := execute_set_cal_offset sbm mgr cmd
      (r.1, r.2, flash)
    | .GET_CAL_OFFSET => (execute_get_cal_offset sbm mgr cmd, mgr, flash)
    | .SET_CAL_ENABLE =>
      let r := execute_set_cal_enable sbm mgr cmd
      (r.1, r.2, flash)
    | .GET_CAL_ENABLE => (execute_get_cal_enable sbm mgr cmd, mgr, flash)
    | .CAL_DATA_QUERY => (export_calibration_data sbm mgr, mgr, flash)
    | .CAL_CLEAR => ("OK", clear_all_calibration sbm mgr, CalStorage.erased_flash)
    | .CAL_SAVE =>
      let r := CalStorage.save_to_flash sbm mgr
      (if r.2 then "OK" else "ERROR:Flash write failed", mgr, r.1)
    | .CAL_LOAD =>
      let r := CalStorage.load_from_flash sbm flash mgr
      (if r.1 then "OK" else "ERROR:No valid calibration data", r.2, flash)
    | .UNKNOWN => ("ERROR:Unknown command", mgr, flash)

end BoardManager

/-- One full command cycle as run by the main loop (src/src/main.cpp):
parse the line, execute the resulting command, emit exactly one response. -/
def respond (sbm : Bool) (hw : HwInputs) (mgr : BoardManager) (flash : FlashRecord)
    (line : String) : String × BoardManager × FlashRecord :=
  BoardManager.execute sbm hw mgr flash (Scpi.parse line.data)

/-- The manager state right after boot (src/src/main.cpp): the BoardManager
constructor followed by init_all against the flash sector present at startup. -/
def boot_manager (sbm : Bool) (flash : FlashRecord) : BoardManager :=
  BoardManager.init_all sbm flash BoardManager.construct

/-! ## Shared concrete states for the claim theorems -/

/-- The multi-board (8-board) manager right after boot against an erased
calibration sector: all devices initialized at default resolutions (current
DACs 16-bit, voltage DAC 12-bit), no calibration loaded. -/
def boot_mgr8 : BoardManager := boot_manager false CalStorage.erased_flash

/-! ## Claim theorems -/

/-- C1 (counterexample): on a booted multi-board system the literal scenario
line `BOARD0:DAC0:CH0:CODE 65536` does *not* produce the response
`ERROR:Code exceeds max (65535 for 16-bit)` — parse_int rejects 65536 (it
does not fit the uint16_t payload), and ScpiParser::parse then overwrites the
parser diagnostic, so the full pipeline answers `ERROR:Unknown command`. -/
theorem set_code_65536_not_ceiling_error :
    (respond false {} boot_mgr8 CalStorage.erased_flash "BOARD0:DAC0:CH0:CODE 65536").1 ≠
      "ERROR:Code exceeds max (65535 for 16-bit)" := by decide

/-- C1 (amended): SET_CODE succeeds with `OK` at the device's max code for
every valid (board, dac, channel) address of the booted system (max 65535 on
the 16-bit current DACs, 4095 on the 12-bit voltage DAC); a code exceeding the
max that still passes the integer parser — which only happens on a device
whose max is below 65535 — is rejected with the resolution-ceiling diagnostic
carrying the offending max and bit depth; and the literal line
`BOARD0:DAC0:CH0:CODE 65536` fails in parse_int instead and yields
`ERROR:Unknown command`. -/
theorem set_code_ceiling :
    (∀ b : Nat, b < 8 → ∀ d : Nat, d < 3 → ∀ ch : Nat, ch < 5 →
      (ch < (if d < 2 then 5 else 4)) →
      BoardManager.execute_set_code false boot_mgr8
        { type := .SET_CODE, board_id := (b : Int), dac_id := (d : Int),
          channel_id := (ch : Int), int_value := if d < 2 then 65535 else 4095,
          has_int := true, valid := true } = "OK") ∧
    (respond false {} boot_mgr8 CalStorage.erased_flash "BOARD0:DAC0:CH0:CODE 65535").1
        = "OK" ∧
    (respond false {} boot_mgr8 CalStorage.erased_flash "BOARD0:DAC2:CH0:CODE 4096").1
        = "ERROR:Code exceeds max (4095 for 12-bit)" ∧
    (respond false {} boot_mgr8 CalStorage.erased_flash "BOARD0:DAC0:CH0:CODE 65536").1
        = "ERROR:Unknown command" := by
  refine ⟨?_, by decide, by decide, by decide⟩
  decide

/-- C8: the parser's specific diagnostics are produced but then clobbered.
For the out-of-range channel digit in `BOARD0:DAC0:CH9:VOLT 1.0`,
parse_board_command stores the channel-specific message, yet
ScpiParser::parse overwrites error_msg with the generic `Unknown command`
before returning, and that generic text is what the executed pipeline
surfaces as the ERROR response. -/
theorem parse_diagnostic_clobbered :
    (Scpi.parse_board_command "BOARD0:DAC0:CH9:VOLT 1.0".data {}).2.error_msg
        = "Invalid channel number (0-4)" ∧
    (Scpi.parse_board_command "BOARD0:DAC0:CH9:VOLT 1.0".data {}).1 = false ∧
    (Scpi.parse "BOARD0:DAC0:CH9:VOLT 1.0".data).valid = false ∧
    (Scpi.parse "BOARD0:DAC0:CH9:VOLT 1.0".data).error_msg = "Unknown command" ∧
    (respond false {} boot_mgr8 CalStorage.erased_flash "BOARD0:DAC0:CH9:VOLT 1.0").1
        = "ERROR:Unknown command" := by decide

/-- C9: the dispatch layer indexes out of bounds in the single-board build.
The parser accepts board digits 0-7 regardless of the build (NUM_BOARDS is
hard-coded to 8 in parse_board_command), and execute_set_voltage /
execute_set_current subscript voltage_dacs_ / current_dacs_ with the raw
board_id without a NUM_BOARDS check, so with NUM_BOARDS = 1 a valid
`BOARD5:...` command reaches the arrays at index 5. -/
theorem dispatch_oob_board_index :
    (Scpi.parse "BOARD5:DAC2:CH0:VOLT 1.0".data).valid = true ∧
    BoardManager.set_voltage_board_index (Scpi.parse "BOARD5:DAC2:CH0:VOLT 1.0".data)
        = some 5 ∧
    ((NUM_BOARDS true : Int) ≤ 5) ∧
    (Scpi.parse "BOARD3:DAC0:CH0:CURR 2.0".data).valid = true ∧
    BoardManager.set_current_board_index (Scpi.parse "BOARD3:DAC0:CH0:CURR 2.0".data)
        = some 3 ∧
    ((NUM_BOARDS true : Int) ≤ 3) := by decide

/-- C6: fault-bitmap remap.  For every board b, a raw snapshot in which
exactly the current-device-0 fault pin 2b (resp. current-device-1 pin 2b+1) of
the 16-bit current-fault expander is low maps to exactly logical bit 3b
(resp. 3b+1), and a snapshot in which exactly temperature pin b of the
separate expander's port A is low maps to exactly logical bit 3b+2. -/
theorem read_fault_bitmap_remap (b : Nat) (hb : b < 8) :
    (∀ j, j < 2 →
      IoExpander.read_faults (0xFFFF ^^^ (1 <<< (2 * b + j))) 0xFF = 1 <<< (3 * b + j)) ∧
    IoExpander.read_faults 0xFFFF (0xFF ^^^ (1 <<< b)) = 1 <<< (3 * b + 2) := by
  interval_cases b <;>
    exact ⟨fun j hj => by interval_cases j <;> decide, by decide⟩

/-- C6 witness: the remap theorem instantiated at board 1. -/
theorem read_fault_bitmap_remap_witness :
    (∀ j, j < 2 →
      IoExpander.read_faults (0xFFFF ^^^ (1 <<< (2 * 1 + j))) 0xFF = 1 <<< (3 * 1 + j)) ∧
    IoExpander.read_faults 0xFFFF (0xFF ^^^ (1 <<< 1)) = 1 <<< (3 * 1 + 2) :=
  read_fault_bitmap_remap 1 (by norm_num)

/-- C3: current_ma_to_code.  On the zero-full-scale spans (Hi-Z span 0 and the
pull-to-negative-supply span 8) the conversion returns code 0 for every input
— negative, in-range or overscale — as claimed; but on a positive-full-scale
span the function computes the clamped, scaled, rounded code into a local and
falls off the end of its non-void body without returning it (undefined
behavior, modelled as none) — here on the default 3.125 mA span, where the
dropped local holds exactly the value the claim specifies (65535 at full
scale, 32768 at half scale plus the 0.5 rounding offset). -/
theorem current_ma_to_code_missing_return :
    LTC2662.current_ma_to_code {} 0 5 = some 0 ∧
    LTC2662.current_ma_to_code { span_ := fun _ => 8 } 0 5 = some 0 ∧
    LTC2662.current_ma_to_code {} 0 (-3) = some 0 ∧
    LTC2662.current_ma_to_code (LTC2662.setup_init 16) 0 (3125 / 1000) = none ∧
    LTC2662.current_ma_to_code_local (LTC2662.setup_init 16) 0 (3125 / 1000) = 65535 ∧
    LTC2662.current_ma_to_code_local (LTC2662.setup_init 16) 0 (3125 / 2000) = 32768 := by
  refine ⟨?_, ?_, ?_, ?_, ?_, ?_⟩ <;>
    norm_num [LTC2662.current_ma_to_code, LTC2662.current_ma_to_code_local,
      LTC2662.get_full_scale_ma, LTC2662.setup_init, LTC2662.init, LTC2662.setup,
      LTC2662.set_span_all, LTC2662.NUM_CHANNELS, LTC2662_FS_CURRENT,
      LTC2662_SPAN.MA_3_125] <;> decide

/-- C10 (counterexample): LTC2662::set_span with span code 0x13 transmits
data 0x03 (the low nibble) but caches the unmasked 0x13, so the cache differs
from the 4-bit code the hardware received, and get_full_scale_ma reports 0 mA
although the chip was put on the 12.5 mA span (code 3). -/
theorem set_span_cache_counterexample :
    ((LTC2662.set_span (LTC2662.setup_init 16) 0 0x13).2 =
      some (send_command DAC_CMD.WRITE_SPAN_N 0 0x03)) ∧
    (send_command DAC_CMD.WRITE_SPAN_N 0 0x03).data16 = 0x03 ∧
    (LTC2662.set_span (LTC2662.setup_init 16) 0 0x13).1.span_ 0 = 0x13 ∧
    (0x13 : Nat) ≠ 0x03 ∧
    LTC2662.get_full_scale_ma (LTC2662.set_span (LTC2662.setup_init 16) 0 0x13).1 0 = 0 ∧
    LTC2662_FS_CURRENT.getD 0x03 0 = 125 / 10 := by
  refine ⟨by decide, by decide, by decide, by decide, ?_, ?_⟩ <;>
    norm_num [LTC2662.set_span, LTC2662.get_full_scale_ma, LTC2662.setup_init,
      LTC2662.init, LTC2662.setup, LTC2662.set_span_all, LTC2662.NUM_CHANNELS,
      LTC2662_FS_CURRENT, LTC2662_SPAN.MA_3_125]

/-- C10 (amended): for span codes up to 0x0F — every code with a defined span
— set_span and set_span_all cache exactly the 4-bit code they transmit, and
get_full_scale_ma then reports the full-scale current of the span the
hardware received.  (Above 0x0F the cache keeps the unmasked argument while
the hardware receives the low nibble; see the counterexample.) -/
theorem set_span_cache_matches (st : LTC2662State) (channel span_code : Nat)
    (hch : channel < LTC2662.NUM_CHANNELS) (hsc : span_code ≤ 0x0F) :
    (LTC2662.set_span st channel span_code).2 =
      some (send_command DAC_CMD.WRITE_SPAN_N channel span_code) ∧
    (LTC2662.set_span st channel span_code).1.span_ channel = span_code ∧
    LTC2662.get_full_scale_ma (LTC2662.set_span st channel span_code).1 channel =
      LTC2662_FS_CURRENT.getD span_code 0 ∧
    (LTC2662.set_span_all st span_code).2 =
      send_command DAC_CMD.WRITE_SPAN_ALL 0 span_code ∧
    (LTC2662.set_span_all st span_code).1.span_ channel = span_code ∧
    LTC2662.get_full_scale_ma (LTC2662.set_span_all st span_code).1 channel =
      LTC2662_FS_CURRENT.getD span_code 0 := by
  have hch5 : channel < 5 := hch
  interval_cases span_code <;> interval_cases channel <;>
    simp [LTC2662.set_span, LTC2662.set_span_all, LTC2662.get_full_scale_ma,
      LTC2662.NUM_CHANNELS, send_command] <;> decide

/-- C10 witness: the cache/transmit agreement instantiated at channel 2,
span code 7 (200 mA), on a default-constructed chip state. -/
theorem set_span_cache_matches_witness :
    (LTC2662.set_span {} 2 7).2 = some (send_command DAC_CMD.WRITE_SPAN_N 2 7) ∧
    (LTC2662.set_span {} 2 7).1.span_ 2 = 7 ∧
    LTC2662.get_full_scale_ma (LTC2662.set_span {} 2 7).1 2 =
      LTC2662_FS_CURRENT.getD 7 0 ∧
    (LTC2662.set_span_all {} 7).2 = send_command DAC_CMD.WRITE_SPAN_ALL 0 7 ∧
    (LTC2662.set_span_all {} 7).1.span_ 2 = 7 ∧
    LTC2662.get_full_scale_ma (LTC2662.set_span_all {} 7).1 2 =
      LTC2662_FS_CURRENT.getD 7 0 :=
  set_span_cache_matches {} 2 7 (by decide) (by decide)

/-- C5: a stored record that fails validation — magic mismatch, version
mismatch, or recomputed CRC-16 differing from the stored checksum — makes
load_from_flash signal failure and return the live state exactly unchanged:
every gain, offset, enable flag and serial number of the manager is the one
passed in. -/
theorem load_invalid_leaves_state (sbm : Bool) (flash : FlashRecord) (mgr : BoardManager)
    (h : flash.magic ≠ CalStorage.CAL_MAGIC ∨ flash.version ≠ CalStorage.CAL_VERSION ∨
      CalStorage.calculate_crc16 flash.payload_bytes ≠ flash.checksum) :
    CalStorage.load_from_flash sbm flash mgr = (false, mgr) := by
  have hv : CalStorage.has_valid_data flash = false := by
    unfold CalStorage.has_valid_data
    rcases h with h | h | h <;> simp [h]
  unfold CalStorage.load_from_flash
  simp [hv]

/-- A concrete record with a wrong magic word. -/
def flash_bad_magic : FlashRecord where
  magic := 0
  version := 1
  checksum := 0xFFFF
  payload_bytes := []
  serial_numbers := fun _ => []
  channels := fun _ _ _ => {}

/-- C5 witness: loading the wrong-magic record into a freshly constructed
manager fails and leaves it unchanged. -/
theorem load_invalid_leaves_state_witness :
    CalStorage.load_from_flash false flash_bad_magic BoardManager.construct =
      (false, BoardManager.construct) :=
  load_invalid_leaves_state false flash_bad_magic BoardManager.construct
    (Or.inl (by decide))

/-- C2 (amended): *RST re-runs init_all, whose last step repeats the
calibration load from the persistent store.  When the store holds no valid
record the load fails and every calibration entry and serial number survives
reset unchanged; when it holds a valid record, reset overwrites the live
calibration entries with the stored values. -/
theorem reset_repeats_calibration_load (sbm : Bool) (flash : FlashRecord)
    (mgr : BoardManager) :
    (CalStorage.has_valid_data flash = false →
      (BoardManager.reset_all sbm flash mgr).calibration_ = mgr.calibration_ ∧
      (BoardManager.reset_all sbm flash mgr).serial_numbers_ = mgr.serial_numbers_) ∧
    (CalStorage.has_valid_data flash = true →
      ∀ b d c, b < NUM_BOARDS sbm → d < DACS_PER_BOARD → c < MAX_CHANNELS_PER_DAC →
        (BoardManager.reset_all sbm flash mgr).calibration_ b d c =
          { gain := (flash.channels b d c).gain
            offset := (flash.channels b d c).offset
            enabled := (flash.channels b d c).enabled ≠ 0 }) := by
  constructor
  · intro hv
    unfold BoardManager.reset_all BoardManager.init_all CalStorage.load_from_flash
    simp [hv]
  · intro hv b d c hb hd hc
    unfold BoardManager.reset_all BoardManager.init_all CalStorage.load_from_flash
    simp [hv, hb, hd, hc]

/-- Manager with one non-default calibration entry: gain 2.0 at (0,0,0). -/
def mgr_gain2 : BoardManager :=
  BoardManager.set_cal_gain false BoardManager.construct 0 0 0 2

/-- The record CAL:SAVE writes for a freshly constructed manager: a valid
record holding default calibration. -/
def flash_default_saved : FlashRecord :=
  (CalStorage.save_to_flash false BoardManager.construct).1

/-- C2 (counterexample): with a valid record in the store (the record a
CAL:SAVE of a default manager writes), *RST changes live calibration state:
the gain at (0,0,0) drops from its live value 2.0 back to the stored 1.0.
Reset therefore does repeat the calibration load, and calibration state does
not survive reset for every store content. -/
theorem reset_overwrites_calibration_counterexample :
    mgr_gain2.calibration_ 0 0 0 ≠
      (BoardManager.reset_all false flash_default_saved mgr_gain2).calibration_ 0 0 0 ∧
    (BoardManager.reset_all false flash_default_saved mgr_gain2).calibration_ 0 0 0
      = {} ∧
    mgr_gain2.calibration_ 0 0 0 = { gain := 2 } := by
  refine ⟨by decide, by decide, by decide⟩

/-- Round-half-up to an integer moves a rational by at most 1/2. -/
theorem floor_add_half_sub_abs (y : ℚ) : |(⌊y + 1 / 2⌋ : ℚ) - y| ≤ 1 / 2 := by
  have h1 := Int.floor_le (y + 1 / 2)
  have h2 := Int.lt_floor_add_one (y + 1 / 2)
  rw [abs_le]
  constructor <;> linarith

/-- Every valid LTC2664 span has a positive range. -/
theorem LTC2664_range_pos (st : LTC2664State) (channel : Nat)
    (hch : channel < LTC2664.NUM_CHANNELS)
    (hspan : st.span_ channel ≤ LTC2664_SPAN.V_PM2_5) :
    0 < LTC2664.get_max_voltage st channel - LTC2664.get_min_voltage st channel := by
  have hch4 : channel < 4 := hch
  have h5 : st.span_ channel ≤ 4 := hspan
  unfold LTC2664.get_max_voltage LTC2664.get_min_voltage
  set s := st.span_ channel with hs
  interval_cases s <;>
    simp [LTC2664.NUM_CHANNELS, LTC2664_SPAN.V_PM2_5, LTC2664_SPAN_INFO,
      Nat.not_le.mpr hch4] <;> norm_num

/-- LTC2664 unit-conversion round trip: on any channel with a valid span and
any voltage within [min, max] of that span, code_to_voltage ∘ voltage_to_code
reproduces the voltage to within one code's worth of quantization error,
(max - min) / max_code (in fact to within half of one). -/
theorem voltage_round_trip_bound (st : LTC2664State) (channel : Nat) (v : ℚ)
    (hch : channel < LTC2664.NUM_CHANNELS)
    (hspan : st.span_ channel ≤ LTC2664_SPAN.V_PM2_5)
    (hmc : 0 < st.max_code_)
    (hlo : LTC2664.get_min_voltage st channel ≤ v)
    (hhi : v ≤ LTC2664.get_max_voltage st channel) :
    |LTC2664.code_to_voltage st channel (LTC2664.voltage_to_code st channel v) - v| ≤
      (LTC2664.get_max_voltage st channel - LTC2664.get_min_voltage st channel) /
        (st.max_code_ : ℚ) := by
  have hR : 0 < LTC2664.get_max_voltage st channel - LTC2664.get_min_voltage st channel :=
    LTC2664_range_pos st channel hch hspan
  set m := LTC2664.get_min_voltage st channel with hm
  set M := LTC2664.get_max_voltage st channel with hM
  set N : ℚ := (st.max_code_ : ℚ) with hN
  have hN0 : (0 : ℚ) < N := by rw [hN]; exact_mod_cast hmc
  set n : ℚ := (v - m) / (M - m) with hn
  have hn0 : 0 ≤ n := div_nonneg (by linarith) (le_of_lt hR)
  have hfl0 : 0 ≤ ⌊n * N + 1 / 2⌋ := by
    apply Int.floor_nonneg.mpr
    have := mul_nonneg hn0 hN0.le
    linarith
  have hv2c : LTC2664.voltage_to_code st channel v = (⌊n * N + 1 / 2⌋).toNat := by
    simp only [LTC2664.voltage_to_code, ← hm, ← hM, ← hN]
    rw [if_neg (by omega : ¬ channel ≥ LTC2664.NUM_CHANNELS),
      if_neg (by linarith : ¬ M - m ≤ 0), if_neg (not_lt.mpr hlo),
      if_neg (by linarith : ¬ v > M)]
  have hcast : ((LTC2664.voltage_to_code st channel v : ℚ)) = (⌊n * N + 1 / 2⌋ : ℚ) := by
    rw [hv2c]
    exact_mod_cast congrArg Int.cast (Int.toNat_of_nonneg hfl0)
  have hc2v : LTC2664.code_to_voltage st channel (LTC2664.voltage_to_code st channel v) =
      m + ((LTC2664.voltage_to_code st channel v : ℚ) / N) * (M - m) := by
    simp only [LTC2664.code_to_voltage, ← hm, ← hM, ← hN]
    rw [if_neg (by omega), if_neg (by linarith)]
  have hvm : n * (M - m) = v - m := div_mul_cancel₀ _ (ne_of_gt hR)
  have hdiff : LTC2664.code_to_voltage st channel (LTC2664.voltage_to_code st channel v) - v
      = (M - m) / N * ((⌊n * N + 1 / 2⌋ : ℚ) - n * N) := by
    rw [hc2v, hcast]
    field_simp
    nlinarith [hvm]
  rw [hdiff, abs_mul, abs_of_pos (div_pos hR hN0)]
  have hkey := floor_add_half_sub_abs (n * N)
  have hstep : (M - m) / N * |(⌊n * N + 1 / 2⌋ : ℚ) - n * N| ≤ (M - m) / N * (1 / 2) :=
    mul_le_mul_of_nonneg_left hkey (le_of_lt (div_pos hR hN0))
  have hhalf : (M - m) / N * (1 / 2) ≤ (M - m) / N := by
    have := le_of_lt (div_pos hR hN0)
    linarith
  linarith

/-- C7: round-trip evidence.  The voltage side holds — on the boot-default
12-bit LTC2664 (±10V span) the round trip at v = 1.234 V is within one code's
worth, via the general bound voltage_round_trip_bound — but the current side
cannot hold: LTC2662::current_ma_to_code falls off the end of its body without
returning the computed code (missing return statement), so a unit-based
current conversion yields no value at all to round-trip. -/
theorem round_trip_evidence :
    |LTC2664.code_to_voltage (LTC2664.setup_init 12) 0
        (LTC2664.voltage_to_code (LTC2664.setup_init 12) 0 (1234 / 1000)) - 1234 / 1000| ≤
      (LTC2664.get_max_voltage (LTC2664.setup_init 12) 0 -
          LTC2664.get_min_voltage (LTC2664.setup_init 12) 0) /
        ((LTC2664.setup_init 12).max_code_ : ℚ) ∧
    LTC2662.current_ma_to_code (LTC2662.setup_init 16) 0 1 = none := by
  constructor
  · apply voltage_round_trip_bound
    · decide
    · decide
    · decide
    · norm_num [LTC2664.get_min_voltage, LTC2664.setup_init, LTC2664.init,
        LTC2664.setup, LTC2664.set_span_all, LTC2664.NUM_CHANNELS,
        LTC2664_SPAN.V_PM10, LTC2664_SPAN.V_PM2_5, LTC2664_SPAN_INFO]
    · norm_num [LTC2664.get_max_voltage, LTC2664.setup_init, LTC2664.init,
        LTC2664.setup, LTC2664.set_span_all, LTC2664.NUM_CHANNELS,
        LTC2664_SPAN.V_PM10, LTC2664_SPAN.V_PM2_5, LTC2664_SPAN_INFO]
  · norm_num [LTC2662.current_ma_to_code, LTC2662.get_full_scale_ma,
      LTC2662.setup_init, LTC2662.init, LTC2662.setup, LTC2662.set_span_all,
      LTC2662.NUM_CHANNELS, LTC2662_FS_CURRENT, LTC2662_SPAN.MA_3_125]

/-- parse_cal_subcommand never touches the address fields. -/
theorem parse_cal_subcommand_ids (p : List Char) (r : Scpi.ScpiCommand) :
    (Scpi.parse_cal_subcommand p r).2.board_id = r.board_id ∧
    (Scpi.parse_cal_subcommand p r).2.dac_id = r.dac_id ∧
    (Scpi.parse_cal_subcommand p r).2.channel_id = r.channel_id := by
  unfold Scpi.parse_cal_subcommand
  dsimp only
  repeat' split
  all_goals exact ⟨rfl, rfl, rfl⟩

/-- parse_channel_subcommand never touches the address fields. -/
theorem parse_channel_subcommand_ids (p : List Char) (r : Scpi.ScpiCommand) :
    (Scpi.parse_channel_subcommand p r).2.board_id = r.board_id ∧
    (Scpi.parse_channel_subcommand p r).2.dac_id = r.dac_id ∧
    (Scpi.parse_channel_subcommand p r).2.channel_id = r.channel_id := by
  unfold Scpi.parse_channel_subcommand
  dsimp only
  repeat' split
  all_goals first
    | exact ⟨rfl, rfl, rfl⟩
    | exact parse_cal_subcommand_ids _ _

/-- parse_dac_subcommand preserves board and dac ids, and only ever stores a
channel id the 0-4 guard admitted. -/
theorem parse_dac_subcommand_ids (p : List Char) (r : Scpi.ScpiCommand) :
    (Scpi.parse_dac_subcommand p r).2.board_id = r.board_id ∧
    (Scpi.parse_dac_subcommand p r).2.dac_id = r.dac_id ∧
    ((Scpi.parse_dac_subcommand p r).2.channel_id = r.channel_id ∨
      (0 ≤ (Scpi.parse_dac_subcommand p r).2.channel_id ∧
        (Scpi.parse_dac_subcommand p r).2.channel_id ≤ 4)) := by
  unfold Scpi.parse_dac_subcommand
  dsimp only
  repeat' split
  all_goals first
    | exact ⟨rfl, rfl, Or.inl rfl⟩
    | skip
  all_goals simp_all [parse_channel_subcommand_ids]

/-- parse_common_command never touches the address fields. -/
theorem parse_common_command_ids (s : List Char) (r : Scpi.ScpiCommand) :
    (Scpi.parse_common_command s r).2.board_id = r.board_id ∧
    (Scpi.parse_common_command s r).2.dac_id = r.dac_id ∧
    (Scpi.parse_common_command s r).2.channel_id = r.channel_id := by
  unfold Scpi.parse_common_command
  dsimp only
  repeat' split
  all_goals exact ⟨rfl, rfl, rfl⟩

/-- parse_system_command never touches the address fields. -/
theorem parse_system_command_ids (s : List Char) (r : Scpi.ScpiCommand) :
    (Scpi.parse_system_command s r).2.board_id = r.board_id ∧
    (Scpi.parse_system_command s r).2.dac_id = r.dac_id ∧
    (Scpi.parse_system_command s r).2.channel_id = r.channel_id := by
  unfold Scpi.parse_system_command
  dsimp only
  repeat' split
  all_goals exact ⟨rfl, rfl, rfl⟩

/-- Address fields are unaddressed (-1) or within the parser's hard-coded
ranges: board 0-7, dac 0-2, channel 0-4. -/
def Scpi.ids_ok (c : Scpi.ScpiCommand) : Prop :=
  (c.board_id = -1 ∨ (0 ≤ c.board_id ∧ c.board_id ≤ 7)) ∧
  (c.dac_id = -1 ∨ (0 ≤ c.dac_id ∧ c.dac_id ≤ 2)) ∧
  (c.channel_id = -1 ∨ (0 ≤ c.channel_id ∧ c.channel_id ≤ 4))

/-- parse_cal_subcommand keeps the address fields in range. -/
theorem parse_cal_subcommand_ids_ok (p : List Char) (r : Scpi.ScpiCommand)
    (h : Scpi.ids_ok r) : Scpi.ids_ok (Scpi.parse_cal_subcommand p r).2 := by
  obtain ⟨h1, h2, h3⟩ := parse_cal_subcommand_ids p r
  unfold Scpi.ids_ok at *
  rw [h1, h2, h3]
  exact h

/-- parse_channel_subcommand keeps the address fields in range. -/
theorem parse_channel_subcommand_ids_ok (p : List Char) (r : Scpi.ScpiCommand)
    (h : Scpi.ids_ok r) : Scpi.ids_ok (Scpi.parse_channel_subcommand p r).2 := by
  obtain ⟨h1, h2, h3⟩ := parse_channel_subcommand_ids p r
  unfold Scpi.ids_ok at *
  rw [h1, h2, h3]
  exact h

/-- parse_dac_subcommand keeps the address fields in range. -/
theorem parse_dac_subcommand_ids_ok (p : List Char) (r : Scpi.ScpiCommand)
    (h : Scpi.ids_ok r) : Scpi.ids_ok (Scpi.parse_dac_subcommand p r).2 := by
  obtain ⟨hb, hd, hc⟩ := parse_dac_subcommand_ids p r
  unfold Scpi.ids_ok at *
  refine ⟨?_, ?_, ?_⟩
  · rw [hb]; exact h.1
  · rw [hd]; exact h.2.1
  · rcases hc with hc | hc
    · rw [hc]; exact h.2.2
    · exact Or.inr hc

/-- parse_common_command keeps the address fields in range. -/
theorem parse_common_command_ids_ok (s : List Char) (r : Scpi.ScpiCommand)
    (h : Scpi.ids_ok r) : Scpi.ids_ok (Scpi.parse_common_command s r).2 := by
  obtain ⟨h1, h2, h3⟩ := parse_common_command_ids s r
  unfold Scpi.ids_ok at *
  rw [h1, h2, h3]
  exact h

/-- parse_system_command keeps the address fields in range. -/
theorem parse_system_command_ids_ok (s : List Char) (r : Scpi.ScpiCommand)
    (h : Scpi.ids_ok r) : Scpi.ids_ok (Scpi.parse_system_command s r).2 := by
  obtain ⟨h1, h2, h3⟩ := parse_system_command_ids s r
  unfold Scpi.ids_ok at *
  rw [h1, h2, h3]
  exact h

/-- parse_board_command keeps the address fields in range: board ids are
stored only after the hard-coded 0-7 check, dac ids after the 0-2 check,
channel ids after the 0-4 check. -/
theorem parse_board_command_ids_ok (cmd : List Char) (r : Scpi.ScpiCommand)
    (h : Scpi.ids_ok r) : Scpi.ids_ok (Scpi.parse_board_command cmd r).2 := by
  unfold Scpi.parse_board_command
  dsimp only
  repeat' split
  all_goals first
    | exact h
    | (apply parse_dac_subcommand_ids_ok
       unfold Scpi.ids_ok at h ⊢
       refine ⟨?_, ?_, ?_⟩ <;> simp_all <;> omega)
    | (unfold Scpi.ids_ok at h ⊢
       refine ⟨?_, ?_, ?_⟩ <;> simp_all <;> omega)
    | (unfold Scpi.ids_ok at h ⊢
       refine ⟨?_, ?_, ?_⟩ <;> simp_all)

/-- Every command the parser returns has its address fields unaddressed or in
the hard-coded ranges. -/
theorem parse_ids_ok (line : List Char) : Scpi.ids_ok (Scpi.parse line) := by
  unfold Scpi.parse
  dsimp only
  repeat' split
  all_goals first
    | exact ⟨Or.inl rfl, Or.inl rfl, Or.inl rfl⟩
    | exact parse_common_command_ids_ok _ _ ⟨Or.inl rfl, Or.inl rfl, Or.inl rfl⟩
    | exact parse_system_command_ids_ok _ _
        (parse_common_command_ids_ok _ _ ⟨Or.inl rfl, Or.inl rfl, Or.inl rfl⟩)
    | exact parse_board_command_ids_ok _ _
        (parse_system_command_ids_ok _ _
          (parse_common_command_ids_ok _ _ ⟨Or.inl rfl, Or.inl rfl, Or.inl rfl⟩))

/-- C4 (amended): for every input line, each address field of the parsed
command is either unaddressed (-1) or within the parser's hard-coded ranges —
board in [0,7] (= [0, NUM_BOARDS-1] of the 8-board build only: the bound does
not follow the build's board count), dac in [0,2], channel in [0,4]; in
particular every Command with valid = true obeys these bounds. -/
theorem parse_ids_in_range (line : List Char) :
    ((Scpi.parse line).board_id = -1 ∨
      (0 ≤ (Scpi.parse line).board_id ∧
        (Scpi.parse line).board_id ≤ (NUM_BOARDS false : Int) - 1)) ∧
    ((Scpi.parse line).dac_id = -1 ∨
      (0 ≤ (Scpi.parse line).dac_id ∧ (Scpi.parse line).dac_id ≤ 2)) ∧
    ((Scpi.parse line).channel_id = -1 ∨
      (0 ≤ (Scpi.parse line).channel_id ∧ (Scpi.parse line).channel_id ≤ 4)) := by
  have h := parse_ids_ok line
  unfold Scpi.ids_ok at h
  simpa [NUM_BOARDS] using h

/-- C4 (counterexample): in the single-board build NUM_BOARDS = 1, yet the
parser accepts BOARD6 as a valid addressed command with board_id 6 — outside
[0, NUM_BOARDS-1] — because the board range check is hard-coded to 0-7. -/
theorem parse_board_range_counterexample :
    (Scpi.parse "BOARD6:DAC1:CH2:CURR 0.5".data).valid = true ∧
    (Scpi.parse "BOARD6:DAC1:CH2:CURR 0.5".data).board_id = 6 ∧
    ¬((Scpi.parse "BOARD6:DAC1:CH2:CURR 0.5".data).board_id ≤
        (NUM_BOARDS true : Int) - 1) := by
  refine ⟨by decide, by decide, by decide⟩
